import Mathlib

/-!
Verification development for the SHMUP_OS content-generation backend.

The definitions below are a shallow embedding of the Python sources:
  * `backend/models/game_data.py`   (pydantic schema `GameData` and submodels)
  * `backend/utils/validation.py`   (`validate_game_data`, `format_validation_error`,
                                     `get_validation_summary`)
  * `backend/services/llm_service.py`  (`get_llm_cache_key`, `generate_game_json`)
  * `backend/services/image_service.py` (`get_cache_key`, `generate_image`)
  * `backend/utils/image_processing.py` (`remove_solid_background`)

Modelling conventions:
  * Python JSON-ish values (the `Dict[str, Any]` fed to pydantic) are the
    inductive `JVal`; Python ints are `Int`, Python floats are modelled as
    exact rationals `Rat` (the claims under study never depend on binary
    floating-point rounding of the schema bounds).
  * pydantic-v2 behaviour is embedded: per-field validation collects every
    error; an `after` field validator runs only when its field's own
    validation succeeded, and it also runs when the provided value is an
    explicit `null` (absent fields use the default and skip the validator);
    a `ValueError` raised inside a validator becomes a validation error with
    message "Value error, <text>", while any other Python exception (such as
    the `TypeError` from iterating `None`) propagates out of validation.
  * Error message texts follow pydantic v2; list-renderings inside the
    custom enum messages are flattened to plain comma-separated words and
    the pluralisation of length messages is not reproduced (no claim
    depends on those fragments).
  * External effects (hash functions, providers, the filesystem, the clock)
    enter as explicit function parameters, and effect traces (sleeps,
    cache stores, provider calls) are returned as data.
-/

/-- A Python/JSON value as handed to `GameData(**data)`. -/
inductive JVal where
  | null : JVal
  | bool (b : Bool) : JVal
  | int (n : Int) : JVal
  | num (q : Rat) : JVal
  | str (s : String) : JVal
  | arr (xs : List JVal) : JVal
  | obj (fs : List (String × JVal)) : JVal

/-- Association-list lookup, modelling Python `dict` access (keys are unique
in a Python dict, so first-match lookup is faithful). -/
def jlookup : List (String × JVal) → String → Option JVal
  | [], _ => none
  | (k, v) :: rest, key => if k = key then some v else jlookup rest key

/-- One pydantic validation error: a location path and a message, as consumed
by `format_validation_error`. -/
structure VErr where
  loc : List String
  msg : String
deriving DecidableEq

/-- Result of validating one fragment: either a value or the collected list
of validation errors. -/
def V (A : Type) : Type := Except (List VErr) A

/-- The errors held by a validation result (empty on success). -/
def errsOf {A : Type} : V A → List VErr
  | .ok _ => []
  | .error es => es

def vmap {A B : Type} (f : A → B) : V A → V B
  | .ok a => .ok (f a)
  | .error es => .error es

/-- Applicative combination accumulating errors from both sides, in order;
this mirrors pydantic validating every field and reporting all errors. -/
def vApp {A B : Type} : V (A → B) → V A → V B
  | .ok f, .ok a => .ok (f a)
  | .ok _, .error es => .error es
  | .error es, .ok _ => .error es
  | .error es₁, .error es₂ => .error (es₁ ++ es₂)

/-- Prefix every error location with a path component (field name or index). -/
def withPath {A : Type} (p : String) : V A → V A
  | .ok a => .ok a
  | .error es => .error (es.map fun e => ⟨p :: e.loc, e.msg⟩)

def vErr {A : Type} (msg : String) : V A := .error [⟨[], msg⟩]

/-- Post-hoc constraint check (range, length, enum membership). -/
def vCheck {A : Type} (p : A → Bool) (msg : String) : V A → V A
  | .ok a => if p a then .ok a else vErr msg
  | .error es => .error es

/-- A required model field: missing gives pydantic's "Field required". -/
def reqF {A : Type} (o : List (String × JVal)) (name : String)
    (f : JVal → V A) : V A :=
  match jlookup o name with
  | none => .error [⟨[name], "Field required"⟩]
  | some j => withPath name (f j)

/-- A field with a default: absent uses the default (and, per pydantic v2,
skips any validator); present values are validated. -/
def optF {A : Type} (o : List (String × JVal)) (name : String) (dflt : A)
    (f : JVal → V A) : V A :=
  match jlookup o name with
  | none => .ok dflt
  | some j => withPath name (f j)

/-- `Optional[T]` annotation: an explicit `null` is accepted as `None`. -/
def vOpt {A : Type} (f : JVal → V A) : JVal → V (Option A)
  | .null => .ok none
  | j => vmap some (f j)

def vStr : JVal → V String
  | .str s => .ok s
  | _ => vErr "Input should be a valid string"

/-- `str` field with optional `min_length` / `max_length` constraints. -/
def vStrC (minL maxL : Option Nat) (j : JVal) : V String :=
  let r₁ := match minL with
    | none => vStr j
    | some m => vCheck (fun s => m ≤ s.length)
        ("String should have at least " ++ toString m ++ " characters") (vStr j)
  match maxL with
  | none => r₁
  | some m => vCheck (fun s => s.length ≤ m)
      ("String should have at most " ++ toString m ++ " characters") r₁

/-- `int` field; a float with integral value is coerced, one with a
fractional part is rejected (pydantic v2 lax mode). -/
def vInt : JVal → V Int
  | .int n => .ok n
  | .num q =>
      if q.den = 1 then .ok q.num
      else vErr "Input should be a valid integer, got a number with a fractional part"
  | _ => vErr "Input should be a valid integer"

def vIntC (lo hi : Option Int) (j : JVal) : V Int :=
  let r₁ := match lo with
    | none => vInt j
    | some m => vCheck (fun n => m ≤ n)
        ("Input should be greater than or equal to " ++ toString m) (vInt j)
  match hi with
  | none => r₁
  | some m => vCheck (fun n => n ≤ m)
      ("Input should be less than or equal to " ++ toString m) r₁

/-- `float` field; ints are accepted (Python numeric tower). -/
def vNum : JVal → V Rat
  | .int n => .ok (n : Rat)
  | .num q => .ok q
  | _ => vErr "Input should be a valid number"

def vNumC (lo hi : Option Rat) (j : JVal) : V Rat :=
  let r₁ := match lo with
    | none => vNum j
    | some m => vCheck (fun q => m ≤ q)
        ("Input should be greater than or equal to " ++ toString m) (vNum j)
  match hi with
  | none => r₁
  | some m => vCheck (fun q => q ≤ m)
      ("Input should be less than or equal to " ++ toString m) r₁

def vBool : JVal → V Bool
  | .bool b => .ok b
  | _ => vErr "Input should be a valid boolean"

/-- Validate the items of a list, locating errors by index (as decimal
strings, matching pydantic's integer path components after `str(x)`). -/
def vListItems {A : Type} (f : JVal → V A) : List JVal → Nat → V (List A)
  | [], _ => .ok []
  | j :: rest, i =>
      vApp (vmap List.cons (withPath (toString i) (f j))) (vListItems f rest (i + 1))

/-- `List[T]` field with optional `min_length` / `max_length`. -/
def vList {A : Type} (f : JVal → V A) (minL maxL : Option Nat) : JVal → V (List A)
  | .arr xs =>
      let items := vListItems f xs 0
      let r₁ := match minL with
        | none => items
        | some m =>
            if m ≤ xs.length then items
            else vApp (vmap (fun _ l => l)
              (vErr ("List should have at least " ++ toString m ++
                " items after validation, not " ++ toString xs.length) : V Unit)) items
      match maxL with
      | none => r₁
      | some m =>
          if xs.length ≤ m then r₁
          else vApp (vmap (fun _ l => l)
            (vErr ("List should have at most " ++ toString m ++
              " items after validation, not " ++ toString xs.length) : V Unit)) r₁
  | _ => vErr "Input should be a valid list"

/-- A nested pydantic model must be fed a dict. -/
def vObj {A : Type} (name : String) (k : List (String × JVal) → V A) :
    JVal → V A
  | .obj o => k o
  | _ => vErr ("Input should be a valid dictionary or instance of " ++ name)

/-! Typed schema model: one Lean structure per pydantic model in
`backend/models/game_data.py`, fields in source order. -/

/-- ANSI color palette for TUI rendering. -/
structure Palette where
  ansi_fg : String
  ansi_bg : String
  accent : String
deriving DecidableEq

/-- Game story and theming. -/
structure Story where
  os_name : String
  tagline : String
  palette : Palette
deriving DecidableEq

/-- Parallax background layer. -/
structure ParallaxLayer where
  id : String
  prompt : String
  depth : Rat
deriving DecidableEq

/-- Enemy wave spawn definition. -/
structure Wave where
  time : Int
  formation : String
  enemy_type : String
  count : Int
  path : String
deriving DecidableEq

/-- Boss phase with HP threshold and attack patterns. -/
structure BossPhase where
  hp : Int
  patterns : List String
deriving DecidableEq

/-- Boss enemy definition. -/
structure Boss where
  id : String
  title : String
  sprite_prompt : Option String
  phases : List BossPhase
deriving DecidableEq

/-- Game stage definition. -/
structure Stage where
  id : String
  title : String
  scroll_speed : Rat
  length_sec : Int
  parallax : List ParallaxLayer
  waves : List Wave
  boss : Boss
deriving DecidableEq

/-- Enemy type definition. -/
structure Enemy where
  id : String
  name : String
  hp : Int
  speed : Rat
  radius : Int
  sprite_prompt : String
  score : Option Int
deriving DecidableEq

/-- Bullet pattern definition. -/
structure BulletPattern where
  id : String
  type : String
  bullets : Option Int
  spread_deg : Option Rat
  arc_deg : Option Rat
  cooldown_ms : Int
  speed : Option Rat
  rate : Option Rat
  dual : Option Bool
deriving DecidableEq

/-- Player weapon definition. -/
structure Weapon where
  id : String
  name : Option String
  dps : Rat
  projectile_speed : Rat
  spread : Rat
  fire_rate : Rat
deriving DecidableEq

/-- Collectible pickup definition. -/
structure Pickup where
  id : String
  name : Option String
  effect : String
  sprite_prompt : Option String
deriving DecidableEq

/-- CRT visual effects configuration. -/
structure CRTEffects where
  scanlines : Bool
  glow : Rat
  vignette : Rat
  flicker : Option Rat
deriving DecidableEq

/-- Player ship configuration. -/
structure Player where
  sprite_prompt : String
deriving DecidableEq

/-- TUI/terminal skin configuration. -/
structure TUISkin where
  frame_prompt : String
  glyph_bullets : Bool
  glyph_set : List String
  crt_effects : CRTEffects
  boot_sequence : Option (List String)
deriving DecidableEq

/-- Complete game data structure (`GameData` in the source). `metadata` is a
free-form dict kept as raw key/value pairs. -/
structure GameData where
  game_id : String
  story : Story
  player : Player
  stages : List Stage
  enemies : List Enemy
  bullet_patterns : Option (List BulletPattern)
  weapons : List Weapon
  pickups : List Pickup
  tui_skin : Option TUISkin
  metadata : Option (List (String × JVal))

/-! Per-model validators, mirroring the `Field(...)` constraints and
`@field_validator` functions of the source, under pydantic-v2 semantics. -/

/-- Matches the regex `^#[0-9A-Fa-f]{6}$`. -/
def isHexColor (s : String) : Bool :=
  s.length = 7 && s.data.head? = some '#' &&
    (s.data.drop 1).all fun c =>
      c.isDigit || ('a' ≤ c && c ≤ 'f') || ('A' ≤ c && c ≤ 'F')

def hexColorMsg : String :=
  "String should match pattern ^#[0-9A-Fa-f]{6}$"

def vHexColor (j : JVal) : V String :=
  vCheck isHexColor hexColorMsg (vStr j)

def validatePalette : JVal → V Palette :=
  vObj "Palette" fun o =>
    vApp (vApp (vmap Palette.mk
      (reqF o "ansi_fg" vHexColor))
      (reqF o "ansi_bg" vHexColor))
      (reqF o "accent" vHexColor)

def validateStory : JVal → V Story :=
  vObj "Story" fun o =>
    vApp (vApp (vmap Story.mk
      (reqF o "os_name" (vStrC (some 1) (some 100))))
      (reqF o "tagline" (vStrC (some 1) (some 200))))
      (reqF o "palette" validatePalette)

def validateParallaxLayer : JVal → V ParallaxLayer :=
  vObj "ParallaxLayer" fun o =>
    vApp (vApp (vmap ParallaxLayer.mk
      (reqF o "id" (vStrC (some 1) none)))
      (reqF o "prompt" (vStrC (some 10) (some 500))))
      (reqF o "depth" (vNumC (some 0) (some 1)))

/-- The python text is "Formation must be one of ['v_wave', 'column', 'line',
'arc', 'circle', 'random']"; the list rendering is flattened here. -/
def formationMsg : String :=
  "Value error, Formation must be one of v_wave, column, line, arc, circle, random"

def pathMsg : String :=
  "Value error, Path must be one of straight, sine, seek, arc, spiral"

def validateWave : JVal → V Wave :=
  vObj "Wave" fun o =>
    vApp (vApp (vApp (vApp (vmap Wave.mk
      (reqF o "time" (vIntC (some 0) none)))
      (reqF o "formation" (fun j =>
        vCheck (fun s => ["v_wave", "column", "line", "arc", "circle", "random"].contains s)
          formationMsg (vStr j))))
      (reqF o "enemy_type" vStr))
      (reqF o "count" (vIntC (some 1) (some 50))))
      (reqF o "path" (fun j =>
        vCheck (fun s => ["straight", "sine", "seek", "arc", "spiral"].contains s)
          pathMsg (vStr j)))

def validateBossPhase : JVal → V BossPhase :=
  vObj "BossPhase" fun o =>
    vApp (vmap BossPhase.mk
      (reqF o "hp" (vIntC (some 100) (some 10000))))
      (reqF o "patterns" (vList vStr (some 1) (some 10)))

def validateBoss : JVal → V Boss :=
  vObj "Boss" fun o =>
    vApp (vApp (vApp (vmap Boss.mk
      (reqF o "id" (vStrC (some 1) none)))
      (reqF o "title" (vStrC (some 1) (some 100))))
      (optF o "sprite_prompt" none (vOpt (vStrC none (some 500)))))
      (reqF o "phases" (vList validateBossPhase (some 1) (some 5)))

def validateStage : JVal → V Stage :=
  vObj "Stage" fun o =>
    vApp (vApp (vApp (vApp (vApp (vApp (vmap Stage.mk
      (reqF o "id" (vStrC (some 1) none)))
      (reqF o "title" (vStrC (some 1) (some 100))))
      (reqF o "scroll_speed" (vNumC (some (mkRat 1 10)) (some 5))))
      (reqF o "length_sec" (vIntC (some 60) (some 600))))
      (reqF o "parallax" (vList validateParallaxLayer (some 1) (some 5))))
      (reqF o "waves" (vList validateWave (some 1) (some 50))))
      (reqF o "boss" validateBoss)

def validateEnemy : JVal → V Enemy :=
  vObj "Enemy" fun o =>
    vApp (vApp (vApp (vApp (vApp (vApp (vmap Enemy.mk
      (reqF o "id" (vStrC (some 1) none)))
      (reqF o "name" (vStrC (some 1) (some 100))))
      (reqF o "hp" (vIntC (some 1) (some 1000))))
      (reqF o "speed" (vNumC (some (mkRat 1 10)) (some 10))))
      (reqF o "radius" (vIntC (some 4) (some 64))))
      (reqF o "sprite_prompt" (vStrC (some 10) (some 500))))
      (optF o "score" (some 100) (vOpt (vIntC (some 0) none)))

def patternTypeMsg : String :=
  "Value error, Pattern type must be one of fan, burst, spiral, laser, aimed, stream, ring"

def validateBulletPattern : JVal → V BulletPattern :=
  vObj "BulletPattern" fun o =>
    vApp (vApp (vApp (vApp (vApp (vApp (vApp (vApp (vmap BulletPattern.mk
      (reqF o "id" (vStrC (some 1) none)))
      (reqF o "type" (fun j =>
        vCheck (fun s => ["fan", "burst", "spiral", "laser", "aimed", "stream", "ring"].contains s)
          patternTypeMsg (vStr j))))
      (optF o "bullets" none (vOpt (vIntC (some 1) (some 100)))))
      (optF o "spread_deg" none (vOpt (vNumC (some 0) (some 360)))))
      (optF o "arc_deg" none (vOpt (vNumC (some 0) (some 360)))))
      (reqF o "cooldown_ms" (vIntC (some 100) (some 10000))))
      (optF o "speed" (some 300) (vOpt (vNumC (some 50) (some 1000)))))
      (optF o "rate" none (vOpt (vNumC (some (mkRat 1 100)) (some 1)))))
      (optF o "dual" (some false) (vOpt vBool))

def validateWeapon : JVal → V Weapon :=
  vObj "Weapon" fun o =>
    vApp (vApp (vApp (vApp (vApp (vmap Weapon.mk
      (reqF o "id" (vStrC (some 1) none)))
      (optF o "name" none (vOpt (vStrC none (some 100)))))
      (reqF o "dps" (vNumC (some 10) (some 1000))))
      (reqF o "projectile_speed" (vNumC (some 100) (some 2000))))
      (optF o "spread" 0 (vNumC (some 0) (some 90))))
      (reqF o "fire_rate" (vNumC (some 1) (some 60)))

def validatePickup : JVal → V Pickup :=
  vObj "Pickup" fun o =>
    vApp (vApp (vApp (vmap Pickup.mk
      (reqF o "id" (vStrC (some 1) none)))
      (optF o "name" none (vOpt (vStrC none (some 100)))))
      (reqF o "effect" vStr))
      (optF o "sprite_prompt" none (vOpt (vStrC none (some 500))))

def validateCRTEffects : JVal → V CRTEffects :=
  vObj "CRTEffects" fun o =>
    vApp (vApp (vApp (vmap CRTEffects.mk
      (optF o "scanlines" true vBool))
      (optF o "glow" (mkRat 3 10) (vNumC (some 0) (some 1))))
      (optF o "vignette" (mkRat 1 5) (vNumC (some 0) (some 1))))
      (optF o "flicker" (some 0) (vOpt (vNumC (some 0) (some 1))))

def validatePlayer : JVal → V Player :=
  vObj "Player" fun o =>
    vmap Player.mk (reqF o "sprite_prompt" (vStrC (some 10) (some 500)))

def validateTUISkin : JVal → V TUISkin :=
  vObj "TUISkin" fun o =>
    vApp (vApp (vApp (vApp (vmap TUISkin.mk
      (reqF o "frame_prompt" (vStrC (some 10) (some 500))))
      (optF o "glyph_bullets" true vBool))
      (reqF o "glyph_set" (vList vStr (some 3) (some 20))))
      (reqF o "crt_effects" validateCRTEffects))
      (optF o "boot_sequence" none (vOpt (vList vStr none (some 10))))

def vDict : JVal → V (List (String × JVal))
  | .obj o => .ok o
  | _ => vErr "Input should be a valid dictionary"

/-! `GameData` validation: field validation in definition order plus the
three `@field_validator` uniqueness checks, and the wrapper functions of
`backend/utils/validation.py`. -/

def stageUniqueMsg : String := "Value error, Stage IDs must be unique"
def enemyUniqueMsg : String := "Value error, Enemy IDs must be unique"
def patternUniqueMsg : String := "Value error, Bullet pattern IDs must be unique"

/-- `len(ids) != len(set(ids))` from the source: true when some id repeats. -/
def hasDupIds (ids : List String) : Bool := ids.dedup.length != ids.length

/-- The `stages` field: core validation (`List[Stage]`, length 1–10), then the
`validate_stages` after-validator, which runs only on core success. -/
def stagesF (o : List (String × JVal)) : V (List Stage) :=
  match reqF o "stages" (vList validateStage (some 1) (some 10)) with
  | .ok l =>
      if hasDupIds (l.map Stage.id) then .error [⟨["stages"], stageUniqueMsg⟩]
      else .ok l
  | .error es => .error es

/-- The `enemies` field with the `validate_enemies` after-validator. -/
def enemiesF (o : List (String × JVal)) : V (List Enemy) :=
  match reqF o "enemies" (vList validateEnemy (some 1) (some 50)) with
  | .ok l =>
      if hasDupIds (l.map Enemy.id) then .error [⟨["enemies"], enemyUniqueMsg⟩]
      else .ok l
  | .error es => .error es

/-- The `bullet_patterns` field. The annotation is
`Optional[List[BulletPattern]] = Field(None)`: an absent field takes the
default `None` and skips the validator; an explicit `null` core-validates to
`None` and the `validate_patterns` after-validator then iterates it, raising
an uncaught `TypeError` — modelled as the `none` outcome here (a Python
exception escaping validation). -/
def patternsF (o : List (String × JVal)) : Option (V (Option (List BulletPattern))) :=
  match jlookup o "bullet_patterns" with
  | none => some (.ok none)
  | some j =>
      match withPath "bullet_patterns" (vOpt (vList validateBulletPattern none none) j) with
      | .ok none => none
      | .ok (some l) =>
          if hasDupIds (l.map BulletPattern.id) then
            some (.error [⟨["bullet_patterns"], patternUniqueMsg⟩])
          else some (.ok (some l))
      | .error es => some (.error es)

/-- `game_id: str = Field(default_factory=lambda: str(uuid.uuid4()))`: the
freshly drawn UUID string enters as the explicit parameter `fresh`. -/
def gameIdF (fresh : String) (o : List (String × JVal)) : V String :=
  match jlookup o "game_id" with
  | none => .ok fresh
  | some j => withPath "game_id" (vStr j)

/-- Outcome of `GameData(**data)`: a validated value, a pydantic
`ValidationError` carrying every collected error, or a non-pydantic Python
exception escaping the constructor. -/
inductive GDResult where
  | ok (g : GameData) : GDResult
  | invalid (es : List VErr) : GDResult
  | pyError : GDResult

/-- The applicative combination of the ten field validations of `GameData`,
in definition order (given the already-computed `bullet_patterns` field). -/
def gdChain (fresh : String) (o : List (String × JVal))
    (pv : V (Option (List BulletPattern))) : V GameData :=
  vApp (vApp (vApp (vApp (vApp (vApp (vApp (vApp (vApp (vmap GameData.mk
    (gameIdF fresh o))
    (reqF o "story" validateStory))
    (reqF o "player" validatePlayer))
    (stagesF o))
    (enemiesF o))
    pv)
    (reqF o "weapons" (vList validateWeapon (some 1) (some 10))))
    (reqF o "pickups" (vList validatePickup (some 1) (some 20))))
    (optF o "tui_skin" none (vOpt validateTUISkin)))
    (optF o "metadata" none (vOpt vDict))

/-- `GameData(**data)`: every field validated independently (errors
accumulated in field order), after-validators applied per field. -/
def validateGameDataCore (fresh : String) (o : List (String × JVal)) : GDResult :=
  match patternsF o with
  | none => .pyError
  | some pv =>
      match gdChain fresh o pv with
      | .ok g => .ok g
      | .error es => .invalid es

/-- `" -> ".join(str(x) for x in err['loc'])` and `"\n".join(errors)`. -/
def joinSep (sep : String) : List String → String
  | [] => ""
  | [x] => x
  | x :: y :: rest => x ++ sep ++ joinSep sep (y :: rest)

/-- `format_validation_error`: the bullet list of `loc: msg` lines. -/
def format_validation_error (es : List VErr) : String :=
  "Validation failed:\n" ++
    joinSep "\n" (es.map fun e => "  • " ++ joinSep " -> " e.loc ++ ": " ++ e.msg)

/-- `validate_game_data(data)`: returns `(is_valid, game_data, error_message)`;
only pydantic `ValidationError` is caught, so the `pyError` outcome escapes
the function — modelled as the `none` result. -/
def validate_game_data (fresh : String) (o : List (String × JVal)) :
    Option (Bool × Option GameData × Option String) :=
  match validateGameDataCore fresh o with
  | .ok g => some (true, some g, none)
  | .invalid es => some (false, none, some (format_validation_error es))
  | .pyError => none

/-- The summary dictionary returned by `get_validation_summary`. -/
structure GameSummary where
  game_id : String
  os_name : String
  stage_count : Nat
  enemy_count : Nat
  pattern_count : Nat
  weapon_count : Nat
  pickup_count : Nat
  total_waves : Nat
  total_boss_phases : Nat
  glyph_bullets : Bool
deriving DecidableEq

/-- `get_validation_summary(game_data)`. Note the Python truthiness tests:
`len(bp) if game_data.bullet_patterns else 0` yields 0 both for `None` and
for an empty list, and `tui_skin.glyph_bullets if game_data.tui_skin else
False` yields `False` for `None`. -/
def get_validation_summary (g : GameData) : GameSummary where
  game_id := g.game_id
  os_name := g.story.os_name
  stage_count := g.stages.length
  enemy_count := g.enemies.length
  pattern_count :=
    match g.bullet_patterns with
    | some l => if l.isEmpty then 0 else l.length
    | none => 0
  weapon_count := g.weapons.length
  pickup_count := g.pickups.length
  total_waves := (g.stages.map fun st => st.waves.length).sum
  total_boss_phases := (g.stages.map fun st => st.boss.phases.length).sum
  glyph_bullets :=
    match g.tui_skin with
    | some ts => ts.glyph_bullets
    | none => false

/-! Text-generation client (`backend/services/llm_service.py`). The SHA-256
digest is abstracted as an explicit `hash` parameter; everything else follows
the source. -/

def PROMPT_VERSION : String := "v4"

/-- The pre-hash key material `f"{PROMPT_VERSION}:{user_prompt}"`. -/
def llmKeyStr (version user_prompt : String) : String :=
  version ++ ":" ++ user_prompt

/-- `get_llm_cache_key(user_prompt, difficulty=None)`: the difficulty
argument is accepted and ignored; only the version tag and the user prompt
feed the digest. -/
def get_llm_cache_key (hash : String → String) (user_prompt : String)
    (difficulty : Option String) : String :=
  hash (llmKeyStr PROMPT_VERSION user_prompt)

/-- Outcome of one loop iteration of `generate_game_json`: the provider
returned parseable JSON, or `json.loads` raised `JSONDecodeError`, or the
completion call raised some other exception. -/
inductive AttemptR where
  | ok (data : JVal) : AttemptR
  | parseErr (msg : String) : AttemptR
  | llmErr (msg : String) : AttemptR

/-- The error string surfaced for a failing attempt (`error_msg` in the
source; for `llmErr` the Python `type(e).__name__: str(e)` is folded into
the message argument). -/
def attemptMsg : AttemptR → Option String
  | .ok _ => none
  | .parseErr m => some ("JSON parsing error: " ++ m)
  | .llmErr m => some ("LLM error: " ++ m)

/-- Observable outcome of `generate_game_json`: the returned triple plus the
performed effects (number of completion attempts, backoff sleeps in order,
cache writes). -/
structure LLMOut where
  success : Bool
  data : Option JVal
  error : Option String
  attempts : Nat
  sleeps : List Nat
  saves : List (String × JVal)

/-- Python truthiness of the cached JSON document (`if cached_data:`),
false for `None`-like and empty containers. -/
def jTruthy : JVal → Bool
  | .null => false
  | .bool b => b
  | .int n => n != 0
  | .num q => q != 0
  | .str s => s != ""
  | .arr xs => !xs.isEmpty
  | .obj fs => !fs.isEmpty

/-- The `for attempt in range(max_retries)` loop. `i` is the current attempt
index, `fuel` the number of iterations left (`maxR - i`); a failing attempt
with `i < maxR - 1` sleeps `2 ** i` seconds and retries, a failing final
attempt returns the error message, and a successful attempt saves to cache
(when caching) and returns the parsed document. -/
def llmLoop (att : Nat → AttemptR) (save : Option String) (maxR : Nat) :
    Nat → Nat → LLMOut
  | _, 0 => ⟨false, none, some "Max retries exceeded", 0, [], []⟩
  | i, fuel + 1 =>
      match att i with
      | .ok d =>
          ⟨true, some d, none, 1, [],
            match save with
            | some k => [(k, d)]
            | none => []⟩
      | .parseErr m =>
          if i < maxR - 1 then
            let rest := llmLoop att save maxR (i + 1) fuel
            ⟨rest.success, rest.data, rest.error, rest.attempts + 1,
              2 ^ i :: rest.sleeps, rest.saves⟩
          else ⟨false, none, some ("JSON parsing error: " ++ m), 1, [], []⟩
      | .llmErr m =>
          if i < maxR - 1 then
            let rest := llmLoop att save maxR (i + 1) fuel
            ⟨rest.success, rest.data, rest.error, rest.attempts + 1,
              2 ^ i :: rest.sleeps, rest.saves⟩
          else ⟨false, none, some ("LLM error: " ++ m), 1, [], []⟩

/-- `generate_game_json(user_prompt, difficulty, max_retries, use_cache)`.
`cache` abstracts `load_from_llm_cache`; a cached value must additionally be
truthy (`if cached_data:`) to count as a hit. The hex digest of a real
SHA-256 key is never empty, but the emptiness guard `if use_cache and
cache_key:` is kept for faithfulness to the abstract `hash`. -/
def generate_game_json (user_prompt : String) (_difficulty : String)
    (max_retries : Nat) (use_cache : Bool) (hash : String → String)
    (cache : String → Option JVal) (att : Nat → AttemptR) : LLMOut :=
  let cache_key := if use_cache then some (get_llm_cache_key hash user_prompt none) else none
  match cache_key with
  | some k =>
      if use_cache && k != "" then
        match cache k with
        | some d =>
            if jTruthy d then ⟨true, some d, none, 0, [], []⟩
            else llmLoop att (some k) max_retries 0 max_retries
        | none => llmLoop att (some k) max_retries 0 max_retries
      else llmLoop att none max_retries 0 max_retries
  | none => llmLoop att none max_retries 0 max_retries

/-! Image-generation client (`backend/services/image_service.py`). -/

/-- `get_cache_key(prompt, size, model)`: digest of
`f"{prompt}|{size}|{model}"`, with the digest abstracted as `hash`. -/
def get_cache_key (hash : String → String) (prompt size model : String) : String :=
  hash (prompt ++ "|" ++ size ++ "|" ++ model)

/-- One observable step of `generate_image`, in execution order. -/
inductive IEvent where
  | fsLookup (key : String) : IEvent
  | memLookup (key : String) : IEvent
  | memStore (key val : String) : IEvent
  | fsStore (key val : String) : IEvent
  | gemCall : IEvent
  | oaiCall : IEvent
deriving DecidableEq

/-- The `(success, base64_image, error_message)` triple a provider returns. -/
structure ProvOut where
  success : Bool
  image : Option String
  error : Option String
deriving DecidableEq

/-- Python truthiness of `image` in `if success and image:`. -/
def strTruthy : Option String → Bool
  | some s => s != ""
  | none => false

/-- Result of `generate_image`: the returned triple, the in-memory cache
(`IMAGE_CACHE`, an insertion-ordered dict modelled as a most-recent-first
association list) after the call, and the event trace. -/
structure ImgResult where
  success : Bool
  image : Option String
  error : Option String
  mem : List (String × String)
  events : List IEvent
deriving DecidableEq

def memFind : List (String × String) → String → Option String
  | [], _ => none
  | (k, v) :: rest, key => if k = key then some v else memFind rest key

/-- `f"{error}"` on an `Optional[str]`. -/
def pyStrOfOpt : Option String → String
  | some s => s
  | none => "None"

/-- The provider-failover tail of `generate_image`: Gemini first, then the
OpenAI fallback, caching a success under `key` when caching is active, and
surfacing only the fallback's error when both fail. -/
def providerPhase (key : Option String) (mem : List (String × String))
    (evs : List IEvent) (gem oai : ProvOut) : ImgResult :=
  if gem.success && strTruthy gem.image then
    let img := pyStrOfOpt gem.image
    match key with
    | some k =>
        ⟨true, some img, none, (k, img) :: mem,
          evs ++ [.gemCall, .memStore k img, .fsStore k img]⟩
    | none => ⟨true, some img, none, mem, evs ++ [.gemCall]⟩
  else
    if oai.success && strTruthy oai.image then
      let img := pyStrOfOpt oai.image
      match key with
      | some k =>
          ⟨true, some img, none, (k, img) :: mem,
            evs ++ [.gemCall, .oaiCall, .memStore k img, .fsStore k img]⟩
      | none => ⟨true, some img, none, mem, evs ++ [.gemCall, .oaiCall]⟩
    else
      ⟨false, none,
        some ("Both Gemini and OpenAI failed. Last error: " ++ pyStrOfOpt oai.error),
        mem, evs ++ [.gemCall, .oaiCall]⟩

/-- `generate_image(prompt, size, use_cache, image_type)`. `fs` abstracts
`load_image_from_cache` (filesystem tier); `gem` and `oai` abstract the two
provider calls. The source checks the filesystem tier first, stores a
filesystem hit into `IMAGE_CACHE`, and consults the memory tier only on a
filesystem miss. -/
def generate_image (hash : String → String) (prompt size : String)
    (use_cache : Bool) (image_type : String) (mem : List (String × String))
    (fs : String → Option String) (gem oai : ProvOut) : ImgResult :=
  let cache_key := if use_cache then some (get_cache_key hash prompt size image_type) else none
  match cache_key with
  | some k =>
      if use_cache && k != "" then
        match fs k with
        | some v =>
            ⟨true, some v, none, (k, v) :: mem, [.fsLookup k, .memStore k v]⟩
        | none =>
            match memFind mem k with
            | some v => ⟨true, some v, none, mem, [.fsLookup k, .memLookup k]⟩
            | none => providerPhase (some k) mem [.fsLookup k, .memLookup k] gem oai
      else providerPhase none mem [] gem oai
  | none => providerPhase none mem [] gem oai

/-! Background remover (`backend/utils/image_processing.py`). The decoded
image is a rectangular raster of RGBA bytes. Color distances are compared
through their exact squares, and the feather interpolation
`((distance - tolerance) / 10 * 255).astype(np.uint8)` is computed exactly
as `(Nat.sqrt (2601 * d2) - 51 * t) / 2` (justified by
`featherAlpha_eq_floor` below); over the byte-sized inputs involved the
float64 pipeline of the source realises exactly these values. -/

/-- One RGBA pixel (channel values 0–255 in the source). -/
structure RGBA where
  r : Nat
  g : Nat
  b : Nat
  a : Nat
deriving DecidableEq

/-- An RGB color (the estimated background color). -/
structure RGB where
  r : Nat
  g : Nat
  b : Nat
deriving DecidableEq

/-- A decoded image: a list of pixel rows. -/
def Raster : Type := List (List RGBA)

/-- The numpy array underlying a decoded image is rectangular with at least
one row and one column; a 0-sized image makes the edge indexing of the
source raise (caught by its `except`). -/
def rasterOkB : Raster → Bool
  | [] => false
  | r :: rs => r.length != 0 && rs.all fun row => row.length == r.length

def px0 : RGBA := ⟨0, 0, 0, 0⟩

/-- `data[0, :], data[height-1, :], data[:, 0], data[:, width-1]` — the four
border edges, in the source's sampling order (corner pixels are sampled by
both an edge row and an edge column, exactly as in the source). -/
def edgeSamples (img : Raster) : List RGBA :=
  img.headD [] ++ img.getLastD [] ++
    (img.map fun row => row.headD px0) ++ (img.map fun row => row.getLastD px0)

/-- `(G > 150) & (G > R) & (G > B)`. -/
def greenishB (p : RGBA) : Bool :=
  150 < p.g && p.r < p.g && p.b < p.g

def insertSorted (x : Nat) : List Nat → List Nat
  | [] => [x]
  | y :: ys => if x ≤ y then x :: y :: ys else y :: insertSorted x ys

def insSort : List Nat → List Nat
  | [] => []
  | x :: xs => insertSorted x (insSort xs)

/-- `np.median` on one channel followed by `.astype(int)`: the middle sorted
element for odd length, the truncated mean of the two middle elements for
even length. -/
def npMedian (l : List Nat) : Nat :=
  let s := insSort l
  if l.length % 2 = 1 then s.getD (l.length / 2) 0
  else (s.getD (l.length / 2 - 1) 0 + s.getD (l.length / 2) 0) / 2

def medianColor (l : List RGBA) : RGB :=
  ⟨npMedian (l.map RGBA.r), npMedian (l.map RGBA.g), npMedian (l.map RGBA.b)⟩

/-- Background-color estimation from the border samples: the per-channel
median of the greenish samples when any exist, of all border samples
otherwise. -/
def bgColor (img : Raster) : RGB :=
  let es := edgeSamples img
  let gs := es.filter greenishB
  if 0 < gs.length then medianColor gs else medianColor es

/-- The squared Euclidean RGB distance of a pixel to the background color
(`r_diff**2 + g_diff**2 + b_diff**2` before the `np.sqrt`). -/
def sqDist (p : RGBA) (c : RGB) : Nat :=
  (((p.r : Int) - c.r) ^ 2 + ((p.g : Int) - c.g) ^ 2 + ((p.b : Int) - c.b) ^ 2).toNat

/-- `((color_distance - tolerance) / 10 * 255).astype(np.uint8)` computed in
exact integer arithmetic: `⌊(√d2 - t) · 255/10⌋ = ⌊(√(2601·d2) - 51·t)/2⌋`. -/
def featherAlpha (d2 t : Nat) : Nat :=
  (Nat.sqrt (2601 * d2) - 51 * t) / 2

/-- `data[green_mask, 3] = 0`: zero the alpha of pixels within tolerance. -/
def maskStep (bg : RGB) (t : Nat) (p : RGBA) : RGBA :=
  if sqDist p bg ≤ t ^ 2 then ⟨p.r, p.g, p.b, 0⟩ else p

/-- `data[feather_mask, 3] = minimum(alpha, feather_alpha)` on the band
`tolerance < distance ≤ tolerance + 10`. -/
def featherStep (bg : RGB) (t : Nat) (p : RGBA) : RGBA :=
  if t ^ 2 < sqDist p bg && sqDist p bg ≤ (t + 10) ^ 2 then
    ⟨p.r, p.g, p.b, min p.a (featherAlpha (sqDist p bg) t)⟩
  else p

def mapPix (f : RGBA → RGBA) (img : Raster) : Raster :=
  img.map (List.map f)

/-- The raster transformation of `remove_solid_background`: estimate the
background color from the border, zero the in-tolerance mask, then feather
the 10-unit band (the two masks are disjoint and RGB never changes, so the
sequential in-place updates of the source compose exactly like this). -/
def processRaster (img : Raster) (t : Nat) : Raster :=
  let bg := bgColor img
  mapPix (featherStep bg t) (mapPix (maskStep bg t) img)

/-- `remove_solid_background(base64_image, tolerance)`. `decode` abstracts
the data-URL stripping, base64 decoding, `Image.open` and RGBA conversion;
`encode` abstracts PNG re-encoding to a data URI. Any failing internal step
(undecodable input, or the edge indexing of a 0-sized raster) lands in the
`except` handler, which returns the input unchanged. -/
def remove_solid_background (decode : String → Option Raster)
    (encode : Raster → String) (base64_image : String) (tolerance : Nat) : String :=
  match decode base64_image with
  | none => base64_image
  | some img =>
      if rasterOkB img then encode (processRaster img tolerance)
      else base64_image

/-- Pixel access by row and column index. -/
def pixelAt (img : Raster) (i j : Nat) : Option RGBA :=
  (img.get? i).bind fun row => row.get? j

/-! Auxiliary definitions used to state the claims. -/

/-- "The message `m` contains the substring `pat`", stated on the underlying
character lists. -/
def containsSub (pat m : String) : Prop := pat.data <:+: m.data

instance (pat m : String) : Decidable (containsSub pat m) :=
  inferInstanceAs (Decidable (_ <:+: _))

/-- A message that is none of the three id-uniqueness violation messages. -/
def notUniqueMsg (m : String) : Prop :=
  m ≠ stageUniqueMsg ∧ m ≠ enemyUniqueMsg ∧ m ≠ patternUniqueMsg

instance (m : String) : Decidable (notUniqueMsg m) :=
  inferInstanceAs (Decidable (_ ∧ _ ∧ _))

/-- Every error of a validation result avoids the uniqueness messages. -/
def ErrsP {A : Type} (r : V A) : Prop := ∀ e ∈ errsOf r, notUniqueMsg e.msg

/-- Whether `GameData(**data)` succeeded. -/
def gdOk : GDResult → Bool
  | .ok _ => true
  | _ => false

/-- The `game_id` of a successful validation outcome. -/
def gdGameId : GDResult → Option String
  | .ok g => some g.game_id
  | _ => none

/-- A minimal raw document satisfying every schema constraint, with no
`game_id` supplied. -/
def validDoc : List (String × JVal) :=
  [("story", .obj [("os_name", .str "FantasyOS"),
                   ("tagline", .str "A living terminal"),
                   ("palette", .obj [("ansi_fg", .str "#00FFD1"),
                                     ("ansi_bg", .str "#06080A"),
                                     ("accent", .str "#8AE6FF")])]),
   ("player", .obj [("sprite_prompt", .str "sleek fighter jet, angular design")]),
   ("stages", .arr [.obj [("id", .str "s1"),
                          ("title", .str "Cathedral Kernel"),
                          ("scroll_speed", .int 1),
                          ("length_sec", .int 240),
                          ("parallax", .arr [.obj [("id", .str "p1"),
                                                   ("prompt", .str "ribbed tunnel, monochrome teal"),
                                                   ("depth", .num (mkRat 1 2))]]),
                          ("waves", .arr [.obj [("time", .int 5),
                                                ("formation", .str "v_wave"),
                                                ("enemy_type", .str "e1"),
                                                ("count", .int 6),
                                                ("path", .str "sine")]]),
                          ("boss", .obj [("id", .str "b1"),
                                         ("title", .str "Seraph of Sockets"),
                                         ("phases", .arr [.obj [("hp", .int 1000),
                                                                ("patterns", .arr [.str "fan_5"])]])])]]),
   ("enemies", .arr [.obj [("id", .str "e1"),
                           ("name", .str "Glyph Worm"),
                           ("hp", .int 24),
                           ("speed", .num (mkRat 6 5)),
                           ("radius", .int 10),
                           ("sprite_prompt", .str "side-view biomech larva, single eye")]]),
   ("weapons", .arr [.obj [("id", .str "w1"),
                           ("name", .str "Needle Rifle"),
                           ("dps", .int 120),
                           ("projectile_speed", .int 900),
                           ("fire_rate", .int 8)]]),
   ("pickups", .arr [.obj [("id", .str "k1"),
                           ("name", .str "Shield Cell"),
                           ("effect", .str "shield+1")]])]

/-- `validDoc` with a caller-supplied `game_id`. -/
def validDocWithId : List (String × JVal) :=
  ("game_id", .str "supplied-id-123") :: validDoc

/-- `validDoc` but with the single valid enemy replaced by two enemies that
share the id "e1", both individually schema-valid. -/
def dupEnemyDoc : List (String × JVal) :=
  validDoc.map fun kv =>
    if kv.1 = "enemies" then
      ("enemies", .arr [.obj [("id", .str "e1"),
                              ("name", .str "Glyph Worm"),
                              ("hp", .int 24),
                              ("speed", .num (mkRat 6 5)),
                              ("radius", .int 10),
                              ("sprite_prompt", .str "side-view biomech larva, single eye")],
                        .obj [("id", .str "e1"),
                              ("name", .str "Rib Sentry"),
                              ("hp", .int 48),
                              ("speed", .num (mkRat 4 5)),
                              ("radius", .int 12),
                              ("sprite_prompt", .str "floating ribcage, mechanical core")]])
    else kv

/-- `validDoc` but with two enemies that share the id "e1" where the first
one is additionally schema-invalid (`hp` 5000 exceeds the 1–1000 bound), so
the `enemies` field fails its own validation and the uniqueness validator
never runs. -/
def dupEnemyBadDoc : List (String × JVal) :=
  validDoc.map fun kv =>
    if kv.1 = "enemies" then
      ("enemies", .arr [.obj [("id", .str "e1"),
                              ("name", .str "Glyph Worm"),
                              ("hp", .int 5000),
                              ("speed", .num (mkRat 6 5)),
                              ("radius", .int 10),
                              ("sprite_prompt", .str "side-view biomech larva, single eye")],
                        .obj [("id", .str "e1"),
                              ("name", .str "Rib Sentry"),
                              ("hp", .int 48),
                              ("speed", .num (mkRat 4 5)),
                              ("radius", .int 12),
                              ("sprite_prompt", .str "floating ribcage, mechanical core")]])
    else kv

/-! Generic helper lemmas shared by the claim theorems. -/

theorem strData_append (a b : String) : (a ++ b).data = a.data ++ b.data := rfl

theorem strData_inj {a b : String} (h : a.data = b.data) : a = b := by
  cases a; cases b; cases h; rfl

theorem containsSub_append_left {pat a : String} (b : String)
    (h : containsSub pat a) : containsSub pat (a ++ b) := by
  unfold containsSub at *
  rw [strData_append]
  have := h.trans (List.infix_append [] a.data b.data)
  simpa using this

theorem containsSub_append_right {pat b : String} (a : String)
    (h : containsSub pat b) : containsSub pat (a ++ b) := by
  unfold containsSub at *
  rw [strData_append]
  have := h.trans (List.infix_append a.data b.data [])
  simpa using this

theorem containsSub_joinSep {pat sep : String} {l : List String} {x : String}
    (hx : x ∈ l) (h : containsSub pat x) : containsSub pat (joinSep sep l) := by
  induction l with
  | nil => cases hx
  | cons y ys ih =>
      cases ys with
      | nil =>
          have hxy : x = y := by simpa using hx
          subst hxy
          simpa [joinSep] using h
      | cons z zs =>
          rcases List.mem_cons.mp hx with rfl | hmem
          · exact containsSub_append_left _ (containsSub_append_left _ h)
          · exact containsSub_append_right _ (ih hmem)

/-- An error in the list surfaces its message as a substring of the
formatted `validate_game_data` error string. -/
theorem containsSub_format {es : List VErr} {e : VErr} (he : e ∈ es)
    {pat : String} (h : containsSub pat e.msg) :
    containsSub pat (format_validation_error es) := by
  unfold format_validation_error
  refine containsSub_append_right _ ?_
  refine containsSub_joinSep (List.mem_map_of_mem _ he) ?_
  exact containsSub_append_right _ h

theorem vApp_ok {A B : Type} {f : V (A → B)} {x : V A} {b : B}
    (h : vApp f x = .ok b) : ∃ g a, f = .ok g ∧ x = .ok a ∧ g a = b := by
  cases f with
  | ok g =>
      cases x with
      | ok a =>
          refine ⟨g, a, rfl, rfl, ?_⟩
          have h' : (Except.ok (g a) : V B) = .ok b := h
          exact Except.ok.inj h'
      | error es => simp [vApp] at h
  | error es => cases x <;> simp [vApp] at h

theorem vApp_errs {A B : Type} (f : V (A → B)) (x : V A) {e : VErr}
    (h : e ∈ errsOf (vApp f x)) : e ∈ errsOf f ∨ e ∈ errsOf x := by
  cases f <;> cases x <;> simp_all [vApp, errsOf]

/-- Errors from the right argument are preserved by `vApp`, and the combined
result is an error. -/
theorem vApp_errs_right {A B : Type} (f : V (A → B)) {x : V A} {es : List VErr}
    (h : x = .error es) {e : VErr} (he : e ∈ es) :
    ∃ es', vApp f x = .error es' ∧ e ∈ es' := by
  subst h
  cases f with
  | ok g => exact ⟨es, rfl, he⟩
  | error es₀ => exact ⟨es₀ ++ es, rfl, List.mem_append_right _ he⟩

theorem vApp_error_left {A B : Type} {f : V (A → B)} (x : V A) {es : List VErr}
    (h : f = .error es) : ∃ es', vApp f x = .error es' := by
  subst h; cases x <;> exact ⟨_, rfl⟩

/-! Claim C5: text-generation cache-key derivation. -/

theorem llmKeyStr_inj_prompt {v p p' : String}
    (h : llmKeyStr v p = llmKeyStr v p') : p = p' := by
  unfold llmKeyStr at h
  have h2 : (v ++ ":" ++ p).data = (v ++ ":" ++ p').data := by rw [h]
  rw [strData_append, strData_append, strData_append, strData_append] at h2
  exact strData_inj (List.append_cancel_left h2)

theorem llmKeyStr_inj_version {v v' p : String}
    (h : llmKeyStr v p = llmKeyStr v' p) : v = v' := by
  unfold llmKeyStr at h
  have h2 : (v ++ ":" ++ p).data = (v' ++ ":" ++ p).data := by rw [h]
  rw [strData_append, strData_append, strData_append, strData_append] at h2
  exact strData_inj (List.append_cancel_right (List.append_cancel_right h2))

/-- C5: `get_llm_cache_key` is a deterministic function of the prompt-version
tag and the user prompt only: the difficulty argument never influences the
key, the key is exactly the digest of `version ++ ":" ++ prompt`, and — for
an injective digest (the idealisation of SHA-256 used here) — changing the
user prompt while keeping the version, or changing the version while keeping
the prompt, changes the key. -/
theorem C5_cache_key_version_prompt_only (hash : String → String)
    (v v' p p' : String) (d d' : Option String) :
    (get_llm_cache_key hash p d = get_llm_cache_key hash p d') ∧
    (get_llm_cache_key hash p d = hash (llmKeyStr PROMPT_VERSION p)) ∧
    (Function.Injective hash → p ≠ p' →
      hash (llmKeyStr v p) ≠ hash (llmKeyStr v p')) ∧
    (Function.Injective hash → v ≠ v' →
      hash (llmKeyStr v p) ≠ hash (llmKeyStr v' p)) := by
  refine ⟨rfl, rfl, ?_, ?_⟩
  · intro hinj hne heq
    exact hne (llmKeyStr_inj_prompt (hinj heq))
  · intro hinj hne heq
    exact hne (llmKeyStr_inj_version (hinj heq))

/-- C5 witness: concrete instantiation with the identity digest. -/
theorem C5_cache_key_version_prompt_only_witness :
    Function.Injective (id : String → String) ∧
    ("alpha" : String) ≠ "beta" ∧ ("v4" : String) ≠ "v5" ∧
    (get_llm_cache_key id "alpha" (some "easy") = get_llm_cache_key id "alpha" none) ∧
    (id (llmKeyStr "v4" "alpha") ≠ id (llmKeyStr "v4" "beta")) ∧
    (id (llmKeyStr "v4" "alpha") ≠ id (llmKeyStr "v5" "alpha")) := by
  refine ⟨fun a b h => h, by decide, by decide, ?_, ?_, ?_⟩
  · exact (C5_cache_key_version_prompt_only id "v4" "v5" "alpha" "beta"
      (some "easy") none).1
  · exact (C5_cache_key_version_prompt_only id "v4" "v5" "alpha" "beta"
      (some "easy") none).2.2.1 (fun a b h => h) (by decide)
  · exact (C5_cache_key_version_prompt_only id "v4" "v5" "alpha" "beta"
      (some "easy") none).2.2.2 (fun a b h => h) (by decide)

/-! Claim C4: retry/backoff termination of `generate_game_json`. -/

/-- On an always-failing provider the retry loop performs exactly `fuel`
further attempts, sleeping `2 ^ n` after every failing attempt except the
last, and surfaces the final attempt's error detail. -/
theorem llmLoop_all_fail (att : Nat → AttemptR) (save : Option String)
    (maxR : Nat) (hfail : ∀ n d, att n ≠ .ok d) :
    ∀ fuel i, 1 ≤ fuel → i + fuel = maxR →
      llmLoop att save maxR i fuel =
        ⟨false, none, attemptMsg (att (maxR - 1)), fuel,
          (List.range' i (fuel - 1)).map (fun n => 2 ^ n), []⟩ := by
  intro fuel
  induction fuel with
  | zero => intro i h1 _; cases h1
  | succ f ih =>
      intro i _ htot
      cases hi : att i with
      | ok d => exact absurd hi (hfail i d)
      | parseErr m =>
          cases f with
          | zero =>
              have hieq : i = maxR - 1 := by omega
              have hnot : ¬ i < maxR - 1 := by omega
              conv_lhs => rw [llmLoop]
              rw [hi]
              simp only [if_neg hnot]
              rw [← hieq, hi]
              simp [attemptMsg, List.range']
          | succ f' =>
              have hlt : i < maxR - 1 := by omega
              have hrest := ih (i + 1) (by omega) (by omega)
              conv_lhs => rw [llmLoop]
              rw [hi]
              simp only [if_pos hlt, hrest]
              simp [List.range'_succ]
      | llmErr m =>
          cases f with
          | zero =>
              have hieq : i = maxR - 1 := by omega
              have hnot : ¬ i < maxR - 1 := by omega
              conv_lhs => rw [llmLoop]
              rw [hi]
              simp only [if_neg hnot]
              rw [← hieq, hi]
              simp [attemptMsg, List.range']
          | succ f' =>
              have hlt : i < maxR - 1 := by omega
              have hrest := ih (i + 1) (by omega) (by omega)
              conv_lhs => rw [llmLoop]
              rw [hi]
              simp only [if_pos hlt, hrest]
              simp [List.range'_succ]

/-- C4: with caching disabled or a cache miss and a provider that fails on
every attempt (parse or transport error), `generate_game_json` makes exactly
`max_retries` completion attempts, sleeps `2 ^ attempt` seconds after every
failing attempt except the last (1s, 2s, 4s, …), performs no cache write,
and terminates returning the final attempt's parse or provider error
detail. -/
theorem C4_retry_backoff_termination (user_prompt difficulty : String)
    (max_retries : Nat) (use_cache : Bool) (hash : String → String)
    (cache : String → Option JVal) (att : Nat → AttemptR)
    (hmax : 1 ≤ max_retries)
    (hmiss : use_cache = false ∨
      ∀ d, cache (get_llm_cache_key hash user_prompt none) = some d → jTruthy d = false)
    (hfail : ∀ n d, att n ≠ .ok d) :
    generate_game_json user_prompt difficulty max_retries use_cache hash cache att =
      ⟨false, none, attemptMsg (att (max_retries - 1)), max_retries,
        (List.range (max_retries - 1)).map (fun n => 2 ^ n), []⟩ := by
  have hloop := llmLoop_all_fail att (some (get_llm_cache_key hash user_prompt none))
    max_retries hfail max_retries 0 hmax (by omega)
  have hloopN := llmLoop_all_fail att none max_retries hfail max_retries 0 hmax (by omega)
  rw [List.range_eq_range']
  cases huse : use_cache with
  | false => simpa [generate_game_json, huse] using hloopN
  | true =>
      rcases hmiss with h | h
      · cases h.symm.trans huse
      · simp only [generate_game_json, huse]
        cases hk : (get_llm_cache_key hash user_prompt none) != "" with
        | false => simpa [hk] using hloopN
        | true =>
            cases hc : cache (get_llm_cache_key hash user_prompt none) with
            | none => simpa [hk, hc] using hloop
            | some d =>
                have := h d hc
                simpa [hk, hc, this] using hloop

/-- C4 witness: three attempts against a provider stub that always raises a
parse error — exactly 3 attempts, sleeps of 1s and 2s, terminal error. -/
theorem C4_retry_backoff_termination_witness :
    1 ≤ 3 ∧
    generate_game_json "a haunted cathedral kernel" "normal" 3 false id
        (fun _ => none) (fun _ => .parseErr "boom") =
      ⟨false, none, some "JSON parsing error: boom", 3, [1, 2], []⟩ := by
  refine ⟨by decide, ?_⟩
  rw [C4_retry_backoff_termination "a haunted cathedral kernel" "normal" 3 false id
    (fun _ => none) (fun _ => .parseErr "boom") (by decide) (Or.inl rfl)
    (fun n d h => AttemptR.noConfusion h)]
  rfl

/-! Claims C2 and C3: cache-tier order and both-providers-failed message of
`generate_image`. -/

theorem bne_true_of_ne {s : String} (h : s ≠ "") : (s != "") = true := by
  simpa using h

/-- C2 (amended): with caching enabled, `generate_image` consults the
filesystem tier first; on a filesystem hit the loaded payload is written
into the in-memory tier and returned (no provider call, no memory lookup);
the in-memory tier is consulted only on a filesystem miss, and a memory hit
then returns the stored payload without any provider call. -/
theorem C2_fs_tier_first_amended (hash : String → String)
    (prompt size image_type : String) (mem : List (String × String))
    (fs : String → Option String) (gem oai : ProvOut)
    (hk : get_cache_key hash prompt size image_type ≠ "") :
    (∀ v, fs (get_cache_key hash prompt size image_type) = some v →
      generate_image hash prompt size true image_type mem fs gem oai =
        ⟨true, some v, none, (get_cache_key hash prompt size image_type, v) :: mem,
          [.fsLookup (get_cache_key hash prompt size image_type),
           .memStore (get_cache_key hash prompt size image_type) v]⟩) ∧
    (fs (get_cache_key hash prompt size image_type) = none →
      ∀ v, memFind mem (get_cache_key hash prompt size image_type) = some v →
      generate_image hash prompt size true image_type mem fs gem oai =
        ⟨true, some v, none, mem,
          [.fsLookup (get_cache_key hash prompt size image_type),
           .memLookup (get_cache_key hash prompt size image_type)]⟩) := by
  constructor
  · intro v hfs
    simp [generate_image, bne_true_of_ne hk, hfs]
  · intro hfs v hmem
    simp [generate_image, bne_true_of_ne hk, hfs, hmem]

/-- C2 witness: a concrete filesystem hit populates the memory tier, and a
concrete memory hit after a filesystem miss is served from memory. -/
theorem C2_fs_tier_first_amended_witness :
    ((fun _ => "K") "p|1024x1024|enemy" : String) ≠ "" ∧
    (fun k => if k = "K" then some "B" else none) "K" = some "B" ∧
    generate_image (fun _ => "K") "p" "1024x1024" true "enemy" [("K", "A")]
        (fun k => if k = "K" then some "B" else none) ⟨false, none, none⟩
        ⟨false, none, none⟩ =
      ⟨true, some "B", none, [("K", "B"), ("K", "A")],
        [.fsLookup "K", .memStore "K" "B"]⟩ := by
  refine ⟨by decide, by decide, ?_⟩
  exact (C2_fs_tier_first_amended (fun _ => "K") "p" "1024x1024" "enemy"
    [("K", "A")] (fun k => if k = "K" then some "B" else none)
    ⟨false, none, none⟩ ⟨false, none, none⟩ (by decide)).1 "B" (by decide)

/-- C2 counterexample: the claim as stated — memory tier consulted before the
filesystem tier — is false: with the key in both tiers under different
payloads the filesystem payload wins, and the first consultation recorded is
the filesystem lookup, not a memory lookup. -/
theorem C2_counterexample_fs_wins :
    memFind [("K", "A")] (get_cache_key (fun _ => "K") "p" "1024x1024" "enemy") =
      some "A" ∧
    (generate_image (fun _ => "K") "p" "1024x1024" true "enemy" [("K", "A")]
        (fun k => if k = "K" then some "B" else none) ⟨false, none, none⟩
        ⟨false, none, none⟩).image = some "B" ∧
    (some "B" : Option String) ≠ some "A" ∧
    (generate_image (fun _ => "K") "p" "1024x1024" true "enemy" [("K", "A")]
        (fun k => if k = "K" then some "B" else none) ⟨false, none, none⟩
        ⟨false, none, none⟩).events.head? = some (.fsLookup "K") := by
  refine ⟨by decide, by decide, by decide, by decide⟩

/-- C3 (amended): when the primary provider fails (or yields no usable
image) and the fallback also fails, `generate_image` returns a failure whose
message names both providers but carries only the fallback's failure reason
(`Last error: …`); the primary's reason is logged, not surfaced. -/
theorem C3_both_fail_fallback_reason_only (hash : String → String)
    (prompt size image_type : String) (use_cache : Bool)
    (mem : List (String × String)) (fs : String → Option String)
    (gem oai : ProvOut)
    (hreach : use_cache = false ∨
      (fs (get_cache_key hash prompt size image_type) = none ∧
       memFind mem (get_cache_key hash prompt size image_type) = none))
    (hgem : (gem.success && strTruthy gem.image) = false)
    (hoai : (oai.success && strTruthy oai.image) = false) :
    (generate_image hash prompt size use_cache image_type mem fs gem oai).success
        = false ∧
    (generate_image hash prompt size use_cache image_type mem fs gem oai).image
        = none ∧
    (generate_image hash prompt size use_cache image_type mem fs gem oai).error
        = some ("Both Gemini and OpenAI failed. Last error: " ++ pyStrOfOpt oai.error) ∧
    (∀ e₂, oai.error = some e₂ →
      containsSub e₂
        ("Both Gemini and OpenAI failed. Last error: " ++ pyStrOfOpt oai.error)) := by
  have hprov : ∀ key evs,
      providerPhase key mem evs gem oai =
        ⟨false, none,
          some ("Both Gemini and OpenAI failed. Last error: " ++ pyStrOfOpt oai.error),
          mem, evs ++ [.gemCall, .oaiCall]⟩ := by
    intro key evs
    unfold providerPhase
    rw [hgem, hoai]
    simp
  have hsub : ∀ e₂, oai.error = some e₂ →
      containsSub e₂
        ("Both Gemini and OpenAI failed. Last error: " ++ pyStrOfOpt oai.error) := by
    intro e₂ he₂
    rw [he₂]
    exact containsSub_append_right _ (List.infix_refl _)
  cases huse : use_cache with
  | false =>
      refine ⟨?_, ?_, ?_, hsub⟩ <;> simp [generate_image, hprov]
  | true =>
      rcases hreach with h | ⟨hfs, hmem⟩
      · cases h.symm.trans huse
      · refine ⟨?_, ?_, ?_, hsub⟩ <;>
          · cases hk : (get_cache_key hash prompt size image_type) != "" with
            | false => simp [generate_image, hk, hprov]
            | true => simp [generate_image, hk, hfs, hmem, hprov]

/-- C3 witness: two concrete failing providers. -/
theorem C3_both_fail_fallback_reason_only_witness :
    ((⟨false, none, some "GEMINIDOWN"⟩ : ProvOut).success &&
      strTruthy (⟨false, none, some "GEMINIDOWN"⟩ : ProvOut).image) = false ∧
    ((⟨false, none, some "OAIDOWN"⟩ : ProvOut).success &&
      strTruthy (⟨false, none, some "OAIDOWN"⟩ : ProvOut).image) = false ∧
    (generate_image (fun _ => "K") "p" "1024x1024" false "enemy" []
        (fun _ => none) ⟨false, none, some "GEMINIDOWN"⟩
        ⟨false, none, some "OAIDOWN"⟩).error =
      some "Both Gemini and OpenAI failed. Last error: OAIDOWN" := by
  refine ⟨by decide, by decide, ?_⟩
  exact (C3_both_fail_fallback_reason_only (fun _ => "K") "p" "1024x1024" "enemy"
    false [] (fun _ => none) ⟨false, none, some "GEMINIDOWN"⟩
    ⟨false, none, some "OAIDOWN"⟩ (Or.inl rfl) (by decide) (by decide)).2.2.1

/-- C3 counterexample: the claim as stated — the surfaced message
concatenates both providers' failure reasons — is false: the primary's
reason does not occur in the surfaced message. -/
theorem C3_counterexample_primary_reason_lost :
    (generate_image (fun _ => "K") "p" "1024x1024" false "enemy" []
        (fun _ => none) ⟨false, none, some "GEMINIDOWN"⟩
        ⟨false, none, some "OAIDOWN"⟩).error =
      some "Both Gemini and OpenAI failed. Last error: OAIDOWN" ∧
    ¬ containsSub "GEMINIDOWN" "Both Gemini and OpenAI failed. Last error: OAIDOWN" ∧
    containsSub "OAIDOWN" "Both Gemini and OpenAI failed. Last error: OAIDOWN" := by
  refine ⟨by decide, by decide, by decide⟩

/-! Claim C8: derived summary statistics. -/

/-- C8: for every validated `GameData`, the summary's `total_waves` is the
sum over stages of their wave counts, `total_boss_phases` the sum over
stages of their boss's phase counts, the four collection counts are the
collection lengths, and `pattern_count` is the length of `bullet_patterns`
when present and 0 when absent (an empty present list also yields 0, its
length). -/
theorem C8_summary_statistics (g : GameData) :
    (get_validation_summary g).game_id = g.game_id ∧
    (get_validation_summary g).os_name = g.story.os_name ∧
    (get_validation_summary g).total_waves =
      (g.stages.map fun st => st.waves.length).sum ∧
    (get_validation_summary g).total_boss_phases =
      (g.stages.map fun st => st.boss.phases.length).sum ∧
    (get_validation_summary g).stage_count = g.stages.length ∧
    (get_validation_summary g).enemy_count = g.enemies.length ∧
    (get_validation_summary g).weapon_count = g.weapons.length ∧
    (get_validation_summary g).pickup_count = g.pickups.length ∧
    (get_validation_summary g).pattern_count = (g.bullet_patterns.getD []).length := by
  refine ⟨rfl, rfl, rfl, rfl, rfl, rfl, rfl, rfl, ?_⟩
  cases h : g.bullet_patterns with
  | none => simp [get_validation_summary, h]
  | some l =>
      cases l with
      | nil => simp [get_validation_summary, h]
      | cons x xs => simp [get_validation_summary, h]

/-! Claim C9: `game_id` defaulting and preservation. -/

theorem vmap_ok {A B : Type} {f : A → B} {x : V A} {b : B}
    (h : vmap f x = .ok b) : ∃ a, x = .ok a ∧ f a = b := by
  cases x with
  | ok a =>
      refine ⟨a, rfl, ?_⟩
      have h' : (Except.ok (f a) : V B) = .ok b := h
      exact Except.ok.inj h'
  | error es => simp [vmap] at h

theorem withPath_ok {A : Type} {p : String} {r : V A} {a : A} :
    withPath p r = .ok a ↔ r = .ok a := by
  cases r <;> simp [withPath]

theorem errsOf_vmap {A B : Type} (f : A → B) (x : V A) :
    errsOf (vmap f x) = errsOf x := by
  cases x <;> rfl

theorem vOpt_nonnull_ne {A : Type} (f : JVal → V A) (j : JVal)
    (hvm : vOpt f j = vmap some (f j)) : vOpt f j ≠ .ok none := by
  intro h
  rw [hvm] at h
  cases hf : f j with
  | ok a => rw [hf] at h; exact Option.noConfusion (Except.ok.inj h)
  | error es => rw [hf] at h; exact Except.noConfusion h

theorem vOpt_ok_none {A : Type} {f : JVal → V A} :
    ∀ {j : JVal}, vOpt f j = .ok none → j = .null := by
  intro j h
  cases j with
  | null => rfl
  | bool b => exact absurd h (vOpt_nonnull_ne f _ rfl)
  | int n => exact absurd h (vOpt_nonnull_ne f _ rfl)
  | num q => exact absurd h (vOpt_nonnull_ne f _ rfl)
  | str s => exact absurd h (vOpt_nonnull_ne f _ rfl)
  | arr xs => exact absurd h (vOpt_nonnull_ne f _ rfl)
  | obj fs => exact absurd h (vOpt_nonnull_ne f _ rfl)

/-- Unless the document sets `bullet_patterns` explicitly to `null`, the
patterns field does not raise. -/
theorem patternsF_some {o : List (String × JVal)}
    (h : jlookup o "bullet_patterns" ≠ some .null) :
    ∃ pv, patternsF o = some pv := by
  cases hp : patternsF o with
  | some pv => exact ⟨pv, rfl⟩
  | none =>
      exfalso
      unfold patternsF at hp
      split at hp
      · exact Option.noConfusion hp
      · rename_i j hl
        split at hp
        · rename_i heq
          have hj : j = .null := vOpt_ok_none (withPath_ok.mp heq)
          exact h (hj ▸ hl)
        · split at hp <;> exact Option.noConfusion hp
        · exact Option.noConfusion hp

theorem core_ok_elim {fresh : String} {o : List (String × JVal)} {g : GameData}
    (h : validateGameDataCore fresh o = .ok g) :
    ∃ pv, patternsF o = some pv ∧ gdChain fresh o pv = .ok g := by
  unfold validateGameDataCore at h
  split at h
  · simp at h
  · rename_i pv hp
    split at h
    · rename_i g' hc
      simp only [GDResult.ok.injEq] at h
      subst h
      exact ⟨pv, hp, hc⟩
    · simp at h

theorem core_invalid_elim {fresh : String} {o : List (String × JVal)} {es : List VErr}
    (h : validateGameDataCore fresh o = .invalid es) :
    ∃ pv, patternsF o = some pv ∧ gdChain fresh o pv = .error es := by
  unfold validateGameDataCore at h
  split at h
  · simp at h
  · rename_i pv hp
    split at h
    · simp at h
    · rename_i es' hc
      simp only [GDResult.invalid.injEq] at h
      subst h
      exact ⟨pv, hp, hc⟩

/-- A successful `GameData(**data)` took its `game_id` from the `game_id`
field validation. -/
theorem gdChain_ok_gameId {fresh : String} {o : List (String × JVal)}
    {pv : V (Option (List BulletPattern))} {g : GameData}
    (h : gdChain fresh o pv = .ok g) : gameIdF fresh o = .ok g.game_id := by
  unfold gdChain at h
  obtain ⟨f9, v10, h9, _, hg⟩ := vApp_ok h
  obtain ⟨f8, v9, h8, _, hf9⟩ := vApp_ok h9
  obtain ⟨f7, v8, h7, _, hf8⟩ := vApp_ok h8
  obtain ⟨f6, v7, h6, _, hf7⟩ := vApp_ok h7
  obtain ⟨f5, v6, h5, _, hf6⟩ := vApp_ok h6
  obtain ⟨f4, v5, h4, _, hf5⟩ := vApp_ok h5
  obtain ⟨f3, v4, h3, _, hf4⟩ := vApp_ok h4
  obtain ⟨f2, v3, h2, _, hf3⟩ := vApp_ok h3
  obtain ⟨f1, v2, h1, _, hf2⟩ := vApp_ok h2
  obtain ⟨v1, hv1, hmk⟩ := vmap_ok h1
  subst hg hf9 hf8 hf7 hf6 hf5 hf4 hf3 hf2 hmk
  simpa using hv1

theorem errsLoc_withPath {A : Type} {p : String} {r : V A} :
    ∀ e ∈ errsOf (withPath p r), e.loc.head? = some p := by
  cases r with
  | ok a => intro e he; simp [withPath, errsOf] at he
  | error es =>
      intro e he
      simp [withPath, errsOf] at he
      obtain ⟨e', _, rfl⟩ := he
      rfl

theorem errsLoc_reqF {A : Type} {o : List (String × JVal)} {name : String}
    {f : JVal → V A} : ∀ e ∈ errsOf (reqF o name f), e.loc.head? = some name := by
  unfold reqF
  cases jlookup o name with
  | none =>
      intro e he
      simp [errsOf] at he
      subst he; rfl
  | some j => exact errsLoc_withPath

theorem errsLoc_optF {A : Type} {o : List (String × JVal)} {name : String}
    {dflt : A} {f : JVal → V A} :
    ∀ e ∈ errsOf (optF o name dflt f), e.loc.head? = some name := by
  unfold optF
  cases jlookup o name with
  | none => intro e he; simp [errsOf] at he
  | some j => exact errsLoc_withPath

theorem errsLoc_stagesF {o : List (String × JVal)} :
    ∀ e ∈ errsOf (stagesF o), e.loc.head? = some "stages" := by
  unfold stagesF
  cases hr : reqF o "stages" (vList validateStage (some 1) (some 10)) with
  | ok l =>
      cases hd : hasDupIds (l.map Stage.id) with
      | true => intro e he; simp [hd, errsOf] at he; subst he; rfl
      | false => intro e he; simp [hd, errsOf] at he
  | error es =>
      intro e he
      exact errsLoc_reqF e (by rw [hr]; exact he)

theorem errsLoc_enemiesF {o : List (String × JVal)} :
    ∀ e ∈ errsOf (enemiesF o), e.loc.head? = some "enemies" := by
  unfold enemiesF
  cases hr : reqF o "enemies" (vList validateEnemy (some 1) (some 50)) with
  | ok l =>
      cases hd : hasDupIds (l.map Enemy.id) with
      | true => intro e he; simp [hd, errsOf] at he; subst he; rfl
      | false => intro e he; simp [hd, errsOf] at he
  | error es =>
      intro e he
      exact errsLoc_reqF e (by rw [hr]; exact he)

theorem errsLoc_patternsF {o : List (String × JVal)}
    {pv : V (Option (List BulletPattern))} (hpv : patternsF o = some pv) :
    ∀ e ∈ errsOf pv, e.loc.head? = some "bullet_patterns" := by
  unfold patternsF at hpv
  split at hpv
  · cases hpv
    intro e he
    simp [errsOf] at he
  · split at hpv
    · exact Option.noConfusion hpv
    · split at hpv
      · cases hpv
        intro e he
        simp [errsOf] at he
        subst he; rfl
      · cases hpv
        intro e he
        simp [errsOf] at he
    · rename_i j hj es heq
      cases hpv
      intro e he
      exact errsLoc_withPath e (by rw [heq]; exact he)

/-- In a document without a `game_id` key, no validation error is located at
`game_id`. -/
theorem gdChain_errs_gameId {fresh : String} {o : List (String × JVal)}
    {pv : V (Option (List BulletPattern))} {es : List VErr}
    (habs : jlookup o "game_id" = none) (hpv : patternsF o = some pv)
    (h : gdChain fresh o pv = .error es) :
    ∀ e ∈ es, e.loc.head? ≠ some "game_id" := by
  intro e he
  have hmem : e ∈ errsOf (gdChain fresh o pv) := by
    rw [h]; exact he
  unfold gdChain at hmem
  rcases vApp_errs _ _ hmem with h1 | hfld
  swap
  · rw [errsLoc_optF e hfld]; simp
  rcases vApp_errs _ _ h1 with h2 | hfld
  swap
  · rw [errsLoc_optF e hfld]; simp
  rcases vApp_errs _ _ h2 with h3 | hfld
  swap
  · rw [errsLoc_reqF e hfld]; simp
  rcases vApp_errs _ _ h3 with h4 | hfld
  swap
  · rw [errsLoc_reqF e hfld]; simp
  rcases vApp_errs _ _ h4 with h5 | hfld
  swap
  · rw [errsLoc_patternsF hpv e hfld]; simp
  rcases vApp_errs _ _ h5 with h6 | hfld
  swap
  · rw [errsLoc_enemiesF e hfld]; simp
  rcases vApp_errs _ _ h6 with h7 | hfld
  swap
  · rw [errsLoc_stagesF e hfld]; simp
  rcases vApp_errs _ _ h7 with h8 | hfld
  swap
  · rw [errsLoc_reqF e hfld]; simp
  rcases vApp_errs _ _ h8 with h9 | hfld
  swap
  · rw [errsLoc_reqF e hfld]; simp
  rw [errsOf_vmap] at h9
  simp [gameIdF, habs, errsOf] at h9

/-- C9: a raw document that omits `game_id` is never rejected for that
reason — no error is located at `game_id`, and on success the resulting
value carries the freshly generated UUID string (36 characters, hence
non-empty); a `game_id` supplied as a string is preserved verbatim. -/
theorem C9_game_id_defaulting (fresh : String) (o : List (String × JVal)) :
    (jlookup o "game_id" = none →
      (∀ g, validateGameDataCore fresh o = .ok g →
          g.game_id = fresh ∧ (fresh.length = 36 → g.game_id ≠ "")) ∧
      (∀ es, validateGameDataCore fresh o = .invalid es →
          ∀ e ∈ es, e.loc.head? ≠ some "game_id")) ∧
    (∀ s, jlookup o "game_id" = some (.str s) →
      ∀ g, validateGameDataCore fresh o = .ok g → g.game_id = s) := by
  constructor
  · intro habs
    constructor
    · intro g hg
      obtain ⟨pv, hpv, hchain⟩ := core_ok_elim hg
      have hgid := gdChain_ok_gameId hchain
      have hok : (Except.ok fresh : V String) = .ok g.game_id := by
        rw [← hgid]; simp [gameIdF, habs]
      have hfg : fresh = g.game_id := Except.ok.inj hok
      refine ⟨hfg.symm, ?_⟩
      intro h36 hempty
      rw [hempty] at hfg
      rw [hfg] at h36
      exact absurd h36 (by decide)
    · intro es hes e he
      obtain ⟨pv, hpv, hchain⟩ := core_invalid_elim hes
      exact gdChain_errs_gameId habs hpv hchain e he
  · intro s hs g hg
    obtain ⟨pv, hpv, hchain⟩ := core_ok_elim hg
    have hgid := gdChain_ok_gameId hchain
    have hok : withPath "game_id" (vStr (.str s)) = .ok g.game_id := by
      rw [← hgid]; simp [gameIdF, hs]
    have hok' : (Except.ok s : V String) = .ok g.game_id := hok
    exact (Except.ok.inj hok').symm

/-- C9 witness: the concrete schema-valid document without `game_id`
validates and receives the fresh UUID; the same document with a supplied
`game_id` keeps it. -/
theorem C9_game_id_defaulting_witness :
    jlookup validDoc "game_id" = none ∧
    ("123e4567-e89b-12d3-a456-426614174000" : String).length = 36 ∧
    gdOk (validateGameDataCore "123e4567-e89b-12d3-a456-426614174000" validDoc) = true ∧
    gdGameId (validateGameDataCore "123e4567-e89b-12d3-a456-426614174000" validDoc) =
      some "123e4567-e89b-12d3-a456-426614174000" ∧
    jlookup validDocWithId "game_id" = some (.str "supplied-id-123") ∧
    gdGameId (validateGameDataCore "123e4567-e89b-12d3-a456-426614174000" validDocWithId) =
      some "supplied-id-123" := by
  have hok : gdOk (validateGameDataCore "123e4567-e89b-12d3-a456-426614174000" validDoc)
      = true := by decide
  have hok2 : gdOk (validateGameDataCore "123e4567-e89b-12d3-a456-426614174000" validDocWithId)
      = true := by decide
  refine ⟨rfl, by decide, hok, ?_, rfl, ?_⟩
  · have h1 := ((C9_game_id_defaulting "123e4567-e89b-12d3-a456-426614174000" validDoc).1 rfl).1
    cases hc : validateGameDataCore "123e4567-e89b-12d3-a456-426614174000" validDoc with
    | ok g => simpa [gdGameId] using (h1 g hc).1
    | invalid es => rw [hc] at hok; simp [gdOk] at hok
    | pyError => rw [hc] at hok; simp [gdOk] at hok
  · have h2 := (C9_game_id_defaulting "123e4567-e89b-12d3-a456-426614174000"
      validDocWithId).2 "supplied-id-123" rfl
    cases hc : validateGameDataCore "123e4567-e89b-12d3-a456-426614174000" validDocWithId with
    | ok g => simpa [gdGameId] using h2 g hc
    | invalid es => rw [hc] at hok2; simp [gdOk] at hok2
    | pyError => rw [hc] at hok2; simp [gdOk] at hok2

/-! Claim C1: infrastructure showing that no validator other than the three
id-uniqueness after-validators ever produces a uniqueness message. -/

theorem notUnique_of_head (c : Char) {m : String} (hc : m.data.head? = some c)
    (hne : c ≠ 'V') : notUniqueMsg m := by
  refine ⟨?_, ?_, ?_⟩ <;>
    · intro he
      rw [he] at hc
      exact hne (Option.some.inj hc).symm

theorem head_append_left (c : Char) {a : String} (hc : a.data.head? = some c)
    (b : String) : (a ++ b).data.head? = some c := by
  rw [strData_append]
  cases hd : a.data with
  | nil => rw [hd] at hc; cases hc
  | cons x xs =>
      rw [hd] at hc
      simpa using hc

theorem headStrMin :
    ("String should have at least " : String).data.head? = some 'S' := rfl
theorem headStrMax :
    ("String should have at most " : String).data.head? = some 'S' := rfl
theorem headInpGe :
    ("Input should be greater than or equal to " : String).data.head? = some 'I' := rfl
theorem headInpLe :
    ("Input should be less than or equal to " : String).data.head? = some 'I' := rfl
theorem headListMin :
    ("List should have at least " : String).data.head? = some 'L' := rfl
theorem headListMax :
    ("List should have at most " : String).data.head? = some 'L' := rfl
theorem headDict :
    ("Input should be a valid dictionary or instance of " : String).data.head?
      = some 'I' := rfl

theorem errsP_ok {A : Type} (a : A) : ErrsP (.ok a : V A) := by
  intro e he; simp [errsOf] at he

theorem errsP_vErr {A : Type} {m : String} (h : notUniqueMsg m) :
    ErrsP (vErr m : V A) := by
  intro e he
  simp [vErr, errsOf] at he
  subst he
  exact h

theorem errsP_vmap {A B : Type} (f : A → B) {x : V A} (h : ErrsP x) :
    ErrsP (vmap f x) := by
  intro e he
  exact h e (by rwa [errsOf_vmap] at he)

theorem errsP_vApp {A B : Type} {f : V (A → B)} {x : V A}
    (hf : ErrsP f) (hx : ErrsP x) : ErrsP (vApp f x) := by
  intro e he
  rcases vApp_errs _ _ he with h | h
  · exact hf e h
  · exact hx e h

theorem errsP_withPath {A : Type} {p : String} {r : V A} (h : ErrsP r) :
    ErrsP (withPath p r) := by
  cases r with
  | ok a => intro e he; simp [withPath, errsOf] at he
  | error es =>
      intro e he
      simp [withPath, errsOf] at he
      obtain ⟨e', he', rfl⟩ := he
      exact h e' he'

theorem errsP_vCheck {A : Type} {p : A → Bool} {m : String} {r : V A}
    (hr : ErrsP r) (hm : notUniqueMsg m) : ErrsP (vCheck p m r) := by
  cases r with
  | ok a =>
      by_cases hp : p a = true
      · intro e he; simp [vCheck, hp, errsOf] at he
      · intro e he
        simp [vCheck, hp] at he
        exact errsP_vErr hm e he
  | error es => exact hr

theorem errsP_reqF {A : Type} {o : List (String × JVal)} {name : String}
    {f : JVal → V A} (hf : ∀ j, ErrsP (f j)) : ErrsP (reqF o name f) := by
  unfold reqF
  cases jlookup o name with
  | none =>
      intro e he
      simp [errsOf] at he
      subst he
      show notUniqueMsg "Field required"
      decide
  | some j => exact errsP_withPath (hf j)

theorem errsP_optF {A : Type} {o : List (String × JVal)} {name : String}
    {dflt : A} {f : JVal → V A} (hf : ∀ j, ErrsP (f j)) :
    ErrsP (optF o name dflt f) := by
  unfold optF
  cases jlookup o name with
  | none => exact errsP_ok dflt
  | some j => exact errsP_withPath (hf j)

theorem errsP_vOpt {A : Type} {f : JVal → V A} (hf : ∀ j, ErrsP (f j)) :
    ∀ j, ErrsP (vOpt f j) := by
  intro j
  cases j with
  | null => exact errsP_ok none
  | bool b => exact errsP_vmap some (hf _)
  | int n => exact errsP_vmap some (hf _)
  | num q => exact errsP_vmap some (hf _)
  | str s => exact errsP_vmap some (hf _)
  | arr xs => exact errsP_vmap some (hf _)
  | obj fs => exact errsP_vmap some (hf _)

theorem errsP_vStr : ∀ j, ErrsP (vStr j) := by
  intro j
  cases j <;> first
    | exact errsP_ok _
    | exact errsP_vErr (by decide)

theorem errsP_vStrC (minL maxL : Option Nat) (j : JVal) :
    ErrsP (vStrC minL maxL j) := by
  have hmin : ∀ m : Nat, notUniqueMsg
      ("String should have at least " ++ toString m ++ " characters") :=
    fun m => notUnique_of_head 'S'
      (head_append_left 'S' (head_append_left 'S' headStrMin (toString m)) " characters")
      (by decide)
  have hmax : ∀ m : Nat, notUniqueMsg
      ("String should have at most " ++ toString m ++ " characters") :=
    fun m => notUnique_of_head 'S'
      (head_append_left 'S' (head_append_left 'S' headStrMax (toString m)) " characters")
      (by decide)
  unfold vStrC
  cases minL with
  | none =>
      cases maxL with
      | none => exact errsP_vStr j
      | some m => exact errsP_vCheck (errsP_vStr j) (hmax m)
  | some m =>
      cases maxL with
      | none => exact errsP_vCheck (errsP_vStr j) (hmin m)
      | some m' => exact errsP_vCheck (errsP_vCheck (errsP_vStr j) (hmin m)) (hmax m')

theorem errsP_vInt : ∀ j, ErrsP (vInt j) := by
  intro j
  cases j with
  | num q =>
      by_cases hq : q.den = 1
      · intro e he; simp [vInt, hq, errsOf] at he
      · intro e he
        simp [vInt, hq] at he
        exact errsP_vErr (by decide) e he
  | _ => first
    | exact errsP_ok _
    | exact errsP_vErr (by decide)

theorem errsP_vIntC (lo hi : Option Int) (j : JVal) : ErrsP (vIntC lo hi j) := by
  have hlo : ∀ m : Int, notUniqueMsg
      ("Input should be greater than or equal to " ++ toString m) :=
    fun m => notUnique_of_head 'I' (head_append_left 'I' headInpGe (toString m)) (by decide)
  have hhi : ∀ m : Int, notUniqueMsg
      ("Input should be less than or equal to " ++ toString m) :=
    fun m => notUnique_of_head 'I' (head_append_left 'I' headInpLe (toString m)) (by decide)
  unfold vIntC
  cases lo with
  | none =>
      cases hi with
      | none => exact errsP_vInt j
      | some m => exact errsP_vCheck (errsP_vInt j) (hhi m)
  | some m =>
      cases hi with
      | none => exact errsP_vCheck (errsP_vInt j) (hlo m)
      | some m' => exact errsP_vCheck (errsP_vCheck (errsP_vInt j) (hlo m)) (hhi m')

theorem errsP_vNum : ∀ j, ErrsP (vNum j) := by
  intro j
  cases j <;> first
    | exact errsP_ok _
    | exact errsP_vErr (by decide)

theorem errsP_vNumC (lo hi : Option Rat) (j : JVal) : ErrsP (vNumC lo hi j) := by
  have hlo : ∀ m : Rat, notUniqueMsg
      ("Input should be greater than or equal to " ++ toString m) :=
    fun m => notUnique_of_head 'I' (head_append_left 'I' headInpGe (toString m)) (by decide)
  have hhi : ∀ m : Rat, notUniqueMsg
      ("Input should be less than or equal to " ++ toString m) :=
    fun m => notUnique_of_head 'I' (head_append_left 'I' headInpLe (toString m)) (by decide)
  unfold vNumC
  cases lo with
  | none =>
      cases hi with
      | none => exact errsP_vNum j
      | some m => exact errsP_vCheck (errsP_vNum j) (hhi m)
  | some m =>
      cases hi with
      | none => exact errsP_vCheck (errsP_vNum j) (hlo m)
      | some m' => exact errsP_vCheck (errsP_vCheck (errsP_vNum j) (hlo m)) (hhi m')

theorem errsP_vBool : ∀ j, ErrsP (vBool j) := by
  intro j
  cases j <;> first
    | exact errsP_ok _
    | exact errsP_vErr (by decide)

theorem errsP_vListItems {A : Type} {f : JVal → V A} (hf : ∀ j, ErrsP (f j)) :
    ∀ xs i, ErrsP (vListItems f xs i) := by
  intro xs
  induction xs with
  | nil => intro i; exact errsP_ok []
  | cons j rest ih =>
      intro i
      exact errsP_vApp (errsP_vmap _ (errsP_withPath (hf j))) (ih (i + 1))

theorem errsP_vList {A : Type} {f : JVal → V A} (hf : ∀ j, ErrsP (f j))
    (minL maxL : Option Nat) : ∀ j, ErrsP (vList f minL maxL j) := by
  intro j
  cases j with
  | arr xs =>
      have hmin : ∀ m : Nat, notUniqueMsg
          ("List should have at least " ++ toString m ++
            " items after validation, not " ++ toString xs.length) :=
        fun m => notUnique_of_head 'L'
          (head_append_left 'L' (head_append_left 'L' (head_append_left 'L' headListMin
            (toString m)) " items after validation, not ") (toString xs.length))
          (by decide)
      have hmax : ∀ m : Nat, notUniqueMsg
          ("List should have at most " ++ toString m ++
            " items after validation, not " ++ toString xs.length) :=
        fun m => notUnique_of_head 'L'
          (head_append_left 'L' (head_append_left 'L' (head_append_left 'L' headListMax
            (toString m)) " items after validation, not ") (toString xs.length))
          (by decide)
      have hitems : ErrsP (vListItems f xs 0) := errsP_vListItems hf xs 0
      unfold vList
      cases minL with
      | none =>
          cases maxL with
          | none => exact hitems
          | some m =>
              by_cases hle : xs.length ≤ m
              · simpa [hle] using hitems
              · simp only [hle, if_false]
                exact errsP_vApp (errsP_vmap _ (errsP_vErr (hmax m))) hitems
      | some m =>
          have hr1 : ErrsP (if m ≤ xs.length then vListItems f xs 0
              else vApp (vmap (fun _ l => l)
                (vErr ("List should have at least " ++ toString m ++
                  " items after validation, not " ++ toString xs.length) : V Unit))
                (vListItems f xs 0)) := by
            by_cases hle : m ≤ xs.length
            · simpa [hle] using hitems
            · simp only [hle, if_false]
              exact errsP_vApp (errsP_vmap _ (errsP_vErr (hmin m))) hitems
          cases maxL with
          | none => exact hr1
          | some m' =>
              by_cases hle : xs.length ≤ m'
              · simpa [hle] using hr1
              · simp only [hle, if_false]
                exact errsP_vApp (errsP_vmap _ (errsP_vErr (hmax m'))) hr1
  | _ => first
    | exact errsP_vErr (by decide)

theorem errsP_vObj {A : Type} {name : String}
    {k : List (String × JVal) → V A} (hk : ∀ o, ErrsP (k o)) :
    ∀ j, ErrsP (vObj name k j) := by
  have hmsg : notUniqueMsg ("Input should be a valid dictionary or instance of " ++ name) :=
    notUnique_of_head 'I' (head_append_left 'I' headDict name) (by decide)
  intro j
  cases j with
  | obj o => exact hk o
  | _ => exact errsP_vErr hmsg

theorem errsP_vHexColor : ∀ j, ErrsP (vHexColor j) :=
  fun j => errsP_vCheck (errsP_vStr j) (by decide)

theorem errsP_validatePalette : ∀ j, ErrsP (validatePalette j) := by
  intro j
  unfold validatePalette
  refine errsP_vObj (fun o => ?_) j
  exact errsP_vApp (errsP_vApp (errsP_vmap _
    (errsP_reqF errsP_vHexColor))
    (errsP_reqF errsP_vHexColor))
    (errsP_reqF errsP_vHexColor)

theorem errsP_validateStory : ∀ j, ErrsP (validateStory j) := by
  intro j
  unfold validateStory
  refine errsP_vObj (fun o => ?_) j
  exact errsP_vApp (errsP_vApp (errsP_vmap _
    (errsP_reqF (errsP_vStrC (some 1) (some 100))))
    (errsP_reqF (errsP_vStrC (some 1) (some 200))))
    (errsP_reqF errsP_validatePalette)

theorem errsP_validateParallaxLayer : ∀ j, ErrsP (validateParallaxLayer j) := by
  intro j
  unfold validateParallaxLayer
  refine errsP_vObj (fun o => ?_) j
  exact errsP_vApp (errsP_vApp (errsP_vmap _
    (errsP_reqF (errsP_vStrC (some 1) none)))
    (errsP_reqF (errsP_vStrC (some 10) (some 500))))
    (errsP_reqF (errsP_vNumC (some 0) (some 1)))

theorem errsP_validateWave : ∀ j, ErrsP (validateWave j) := by
  intro j
  unfold validateWave
  refine errsP_vObj (fun o => ?_) j
  exact errsP_vApp (errsP_vApp (errsP_vApp (errsP_vApp (errsP_vmap _
    (errsP_reqF (errsP_vIntC (some 0) none)))
    (errsP_reqF (fun j => errsP_vCheck (errsP_vStr j) (by decide))))
    (errsP_reqF errsP_vStr))
    (errsP_reqF (errsP_vIntC (some 1) (some 50))))
    (errsP_reqF (fun j => errsP_vCheck (errsP_vStr j) (by decide)))

theorem errsP_validateBossPhase : ∀ j, ErrsP (validateBossPhase j) := by
  intro j
  unfold validateBossPhase
  refine errsP_vObj (fun o => ?_) j
  exact errsP_vApp (errsP_vmap _
    (errsP_reqF (errsP_vIntC (some 100) (some 10000))))
    (errsP_reqF (errsP_vList errsP_vStr (some 1) (some 10)))

theorem errsP_validateBoss : ∀ j, ErrsP (validateBoss j) := by
  intro j
  unfold validateBoss
  refine errsP_vObj (fun o => ?_) j
  exact errsP_vApp (errsP_vApp (errsP_vApp (errsP_vmap _
    (errsP_reqF (errsP_vStrC (some 1) none)))
    (errsP_reqF (errsP_vStrC (some 1) (some 100))))
    (errsP_optF (errsP_vOpt (errsP_vStrC none (some 500)))))
    (errsP_reqF (errsP_vList errsP_validateBossPhase (some 1) (some 5)))

theorem errsP_validateStage : ∀ j, ErrsP (validateStage j) := by
  intro j
  unfold validateStage
  refine errsP_vObj (fun o => ?_) j
  exact errsP_vApp (errsP_vApp (errsP_vApp (errsP_vApp (errsP_vApp (errsP_vApp
    (errsP_vmap _
    (errsP_reqF (errsP_vStrC (some 1) none)))
    (errsP_reqF (errsP_vStrC (some 1) (some 100))))
    (errsP_reqF (errsP_vNumC (some (mkRat 1 10)) (some 5))))
    (errsP_reqF (errsP_vIntC (some 60) (some 600))))
    (errsP_reqF (errsP_vList errsP_validateParallaxLayer (some 1) (some 5))))
    (errsP_reqF (errsP_vList errsP_validateWave (some 1) (some 50))))
    (errsP_reqF errsP_validateBoss)

theorem errsP_validateEnemy : ∀ j, ErrsP (validateEnemy j) := by
  intro j
  unfold validateEnemy
  refine errsP_vObj (fun o => ?_) j
  exact errsP_vApp (errsP_vApp (errsP_vApp (errsP_vApp (errsP_vApp (errsP_vApp
    (errsP_vmap _
    (errsP_reqF (errsP_vStrC (some 1) none)))
    (errsP_reqF (errsP_vStrC (some 1) (some 100))))
    (errsP_reqF (errsP_vIntC (some 1) (some 1000))))
    (errsP_reqF (errsP_vNumC (some (mkRat 1 10)) (some 10))))
    (errsP_reqF (errsP_vIntC (some 4) (some 64))))
    (errsP_reqF (errsP_vStrC (some 10) (some 500))))
    (errsP_optF (errsP_vOpt (errsP_vIntC (some 0) none)))

theorem errsP_validateBulletPattern : ∀ j, ErrsP (validateBulletPattern j) := by
  intro j
  unfold validateBulletPattern
  refine errsP_vObj (fun o => ?_) j
  exact errsP_vApp (errsP_vApp (errsP_vApp (errsP_vApp (errsP_vApp (errsP_vApp
    (errsP_vApp (errsP_vApp (errsP_vmap _
    (errsP_reqF (errsP_vStrC (some 1) none)))
    (errsP_reqF (fun j => errsP_vCheck (errsP_vStr j) (by decide))))
    (errsP_optF (errsP_vOpt (errsP_vIntC (some 1) (some 100)))))
    (errsP_optF (errsP_vOpt (errsP_vNumC (some 0) (some 360)))))
    (errsP_optF (errsP_vOpt (errsP_vNumC (some 0) (some 360)))))
    (errsP_reqF (errsP_vIntC (some 100) (some 10000))))
    (errsP_optF (errsP_vOpt (errsP_vNumC (some 50) (some 1000)))))
    (errsP_optF (errsP_vOpt (errsP_vNumC (some (mkRat 1 100)) (some 1)))))
    (errsP_optF (errsP_vOpt errsP_vBool))

theorem errsP_validateWeapon : ∀ j, ErrsP (validateWeapon j) := by
  intro j
  unfold validateWeapon
  refine errsP_vObj (fun o => ?_) j
  exact errsP_vApp (errsP_vApp (errsP_vApp (errsP_vApp (errsP_vApp (errsP_vmap _
    (errsP_reqF (errsP_vStrC (some 1) none)))
    (errsP_optF (errsP_vOpt (errsP_vStrC none (some 100)))))
    (errsP_reqF (errsP_vNumC (some 10) (some 1000))))
    (errsP_reqF (errsP_vNumC (some 100) (some 2000))))
    (errsP_optF (errsP_vNumC (some 0) (some 90))))
    (errsP_reqF (errsP_vNumC (some 1) (some 60)))

theorem errsP_validatePickup : ∀ j, ErrsP (validatePickup j) := by
  intro j
  unfold validatePickup
  refine errsP_vObj (fun o => ?_) j
  exact errsP_vApp (errsP_vApp (errsP_vApp (errsP_vmap _
    (errsP_reqF (errsP_vStrC (some 1) none)))
    (errsP_optF (errsP_vOpt (errsP_vStrC none (some 100)))))
    (errsP_reqF errsP_vStr))
    (errsP_optF (errsP_vOpt (errsP_vStrC none (some 500))))

theorem errsP_validateCRTEffects : ∀ j, ErrsP (validateCRTEffects j) := by
  intro j
  unfold validateCRTEffects
  refine errsP_vObj (fun o => ?_) j
  exact errsP_vApp (errsP_vApp (errsP_vApp (errsP_vmap _
    (errsP_optF errsP_vBool))
    (errsP_optF (errsP_vNumC (some 0) (some 1))))
    (errsP_optF (errsP_vNumC (some 0) (some 1))))
    (errsP_optF (errsP_vOpt (errsP_vNumC (some 0) (some 1))))

theorem errsP_validatePlayer : ∀ j, ErrsP (validatePlayer j) := by
  intro j
  unfold validatePlayer
  refine errsP_vObj (fun o => ?_) j
  exact errsP_vmap _ (errsP_reqF (errsP_vStrC (some 10) (some 500)))

theorem errsP_validateTUISkin : ∀ j, ErrsP (validateTUISkin j) := by
  intro j
  unfold validateTUISkin
  refine errsP_vObj (fun o => ?_) j
  exact errsP_vApp (errsP_vApp (errsP_vApp (errsP_vApp (errsP_vmap _
    (errsP_reqF (errsP_vStrC (some 10) (some 500))))
    (errsP_optF errsP_vBool))
    (errsP_reqF (errsP_vList errsP_vStr (some 3) (some 20))))
    (errsP_reqF errsP_validateCRTEffects))
    (errsP_optF (errsP_vOpt (errsP_vList errsP_vStr none (some 10))))

theorem errsP_vDict : ∀ j, ErrsP (vDict j) := by
  intro j
  cases j <;> first
    | exact errsP_ok _
    | exact errsP_vErr (by decide)

theorem errsP_gameIdF (fresh : String) (o : List (String × JVal)) :
    ErrsP (gameIdF fresh o) := by
  unfold gameIdF
  cases jlookup o "game_id" with
  | none => exact errsP_ok fresh
  | some j => exact errsP_withPath (errsP_vStr j)

theorem errsP_stagesF {o : List (String × JVal)}
    (hnd : ∀ l, reqF o "stages" (vList validateStage (some 1) (some 10)) = .ok l →
      hasDupIds (l.map Stage.id) = false) : ErrsP (stagesF o) := by
  unfold stagesF
  split
  · rename_i l hr
    rw [hnd l hr]
    simp only [Bool.false_eq_true, if_false]
    exact errsP_ok l
  · rename_i es hr
    intro e he
    exact errsP_reqF (errsP_vList errsP_validateStage (some 1) (some 10)) e
      (by rw [hr]; exact he)

theorem errsP_enemiesF {o : List (String × JVal)}
    (hnd : ∀ l, reqF o "enemies" (vList validateEnemy (some 1) (some 50)) = .ok l →
      hasDupIds (l.map Enemy.id) = false) : ErrsP (enemiesF o) := by
  unfold enemiesF
  split
  · rename_i l hr
    rw [hnd l hr]
    simp only [Bool.false_eq_true, if_false]
    exact errsP_ok l
  · rename_i es hr
    intro e he
    exact errsP_reqF (errsP_vList errsP_validateEnemy (some 1) (some 50)) e
      (by rw [hr]; exact he)

theorem errsP_patternsF {o : List (String × JVal)}
    (hnd : ∀ l j, jlookup o "bullet_patterns" = some j →
      withPath "bullet_patterns" (vOpt (vList validateBulletPattern none none) j)
        = .ok (some l) →
      hasDupIds (l.map BulletPattern.id) = false)
    {pv : V (Option (List BulletPattern))} (hpv : patternsF o = some pv) :
    ErrsP pv := by
  unfold patternsF at hpv
  split at hpv
  · cases hpv
    exact errsP_ok none
  · rename_i j hl
    split at hpv
    · exact Option.noConfusion hpv
    · rename_i l heq
      rw [hnd l j hl heq] at hpv
      simp only [Bool.false_eq_true, if_false, Option.some.injEq] at hpv
      rw [← hpv]
      exact errsP_ok (some l)
    · rename_i es heq
      cases hpv
      intro e he
      exact errsP_withPath
        (errsP_vOpt (errsP_vList errsP_validateBulletPattern none none) j) e
        (by rw [heq]; exact he)

/-- The accumulated field errors of a fully-validated document never contain
a uniqueness message unless one of the three after-validators produced it. -/
theorem gdChain_errs_notUnique {fresh : String} {o : List (String × JVal)}
    {pv : V (Option (List BulletPattern))} {es : List VErr}
    (hs : ∀ l, reqF o "stages" (vList validateStage (some 1) (some 10)) = .ok l →
      hasDupIds (l.map Stage.id) = false)
    (hen : ∀ l, reqF o "enemies" (vList validateEnemy (some 1) (some 50)) = .ok l →
      hasDupIds (l.map Enemy.id) = false)
    (hpt : ∀ l j, jlookup o "bullet_patterns" = some j →
      withPath "bullet_patterns" (vOpt (vList validateBulletPattern none none) j)
        = .ok (some l) →
      hasDupIds (l.map BulletPattern.id) = false)
    (hpv : patternsF o = some pv) (h : gdChain fresh o pv = .error es) :
    ∀ e ∈ es, notUniqueMsg e.msg := by
  have hchain : ErrsP (gdChain fresh o pv) := by
    unfold gdChain
    exact errsP_vApp (errsP_vApp (errsP_vApp (errsP_vApp (errsP_vApp (errsP_vApp
      (errsP_vApp (errsP_vApp (errsP_vApp (errsP_vmap _ (errsP_gameIdF fresh o))
      (errsP_reqF errsP_validateStory))
      (errsP_reqF errsP_validatePlayer))
      (errsP_stagesF hs))
      (errsP_enemiesF hen))
      (errsP_patternsF hpt hpv))
      (errsP_reqF (errsP_vList errsP_validateWeapon (some 1) (some 10))))
      (errsP_reqF (errsP_vList errsP_validatePickup (some 1) (some 20))))
      (errsP_optF (errsP_vOpt errsP_validateTUISkin)))
      (errsP_optF (errsP_vOpt errsP_vDict))
  intro e he
  exact hchain e (by rw [h]; exact he)

theorem vApp_errs_left {A B : Type} {f : V (A → B)} (x : V A) {es : List VErr}
    (h : f = .error es) {e : VErr} (he : e ∈ es) :
    ∃ es', vApp f x = .error es' ∧ e ∈ es' := by
  subst h
  cases x with
  | ok a => exact ⟨es, rfl, he⟩
  | error es₂ => exact ⟨es ++ es₂, rfl, List.mem_append_left _ he⟩

theorem stagesF_dup {o : List (String × JVal)} {l : List Stage}
    (hcore : reqF o "stages" (vList validateStage (some 1) (some 10)) = .ok l)
    (hdup : hasDupIds (l.map Stage.id) = true) :
    stagesF o = .error [⟨["stages"], stageUniqueMsg⟩] := by
  unfold stagesF
  rw [hcore]
  simp [hdup]

theorem enemiesF_dup {o : List (String × JVal)} {l : List Enemy}
    (hcore : reqF o "enemies" (vList validateEnemy (some 1) (some 50)) = .ok l)
    (hdup : hasDupIds (l.map Enemy.id) = true) :
    enemiesF o = .error [⟨["enemies"], enemyUniqueMsg⟩] := by
  unfold enemiesF
  rw [hcore]
  simp [hdup]

theorem patternsF_dup {o : List (String × JVal)} {j : JVal} {l : List BulletPattern}
    (hl : jlookup o "bullet_patterns" = some j)
    (hcore : withPath "bullet_patterns" (vOpt (vList validateBulletPattern none none) j)
      = .ok (some l))
    (hdup : hasDupIds (l.map BulletPattern.id) = true) :
    patternsF o = some (.error [⟨["bullet_patterns"], patternUniqueMsg⟩]) := by
  unfold patternsF
  rw [hl]
  simp [hcore, hdup]

/-- A uniqueness error raised by the `stages` validator survives into the
accumulated error list of the whole model validation. -/
theorem gdChain_stages_err {fresh : String} {o : List (String × JVal)}
    {pv : V (Option (List BulletPattern))} {es0 : List VErr} {e : VErr}
    (hst : stagesF o = .error es0) (he : e ∈ es0) :
    ∃ es, gdChain fresh o pv = .error es ∧ e ∈ es := by
  unfold gdChain
  obtain ⟨es4, h4, hm4⟩ := vApp_errs_right _ hst he
  obtain ⟨es5, h5, hm5⟩ := vApp_errs_left _ h4 hm4
  obtain ⟨es6, h6, hm6⟩ := vApp_errs_left _ h5 hm5
  obtain ⟨es7, h7, hm7⟩ := vApp_errs_left _ h6 hm6
  obtain ⟨es8, h8, hm8⟩ := vApp_errs_left _ h7 hm7
  obtain ⟨es9, h9, hm9⟩ := vApp_errs_left _ h8 hm8
  obtain ⟨es10, h10, hm10⟩ := vApp_errs_left _ h9 hm9
  exact ⟨es10, h10, hm10⟩

theorem gdChain_enemies_err {fresh : String} {o : List (String × JVal)}
    {pv : V (Option (List BulletPattern))} {es0 : List VErr} {e : VErr}
    (hen : enemiesF o = .error es0) (he : e ∈ es0) :
    ∃ es, gdChain fresh o pv = .error es ∧ e ∈ es := by
  unfold gdChain
  obtain ⟨es5, h5, hm5⟩ := vApp_errs_right _ hen he
  obtain ⟨es6, h6, hm6⟩ := vApp_errs_left _ h5 hm5
  obtain ⟨es7, h7, hm7⟩ := vApp_errs_left _ h6 hm6
  obtain ⟨es8, h8, hm8⟩ := vApp_errs_left _ h7 hm7
  obtain ⟨es9, h9, hm9⟩ := vApp_errs_left _ h8 hm8
  obtain ⟨es10, h10, hm10⟩ := vApp_errs_left _ h9 hm9
  exact ⟨es10, h10, hm10⟩

theorem gdChain_pv_err {fresh : String} {o : List (String × JVal)}
    {pv : V (Option (List BulletPattern))} {es0 : List VErr} {e : VErr}
    (hpveq : pv = .error es0) (he : e ∈ es0) :
    ∃ es, gdChain fresh o pv = .error es ∧ e ∈ es := by
  unfold gdChain
  obtain ⟨es6, h6, hm6⟩ := vApp_errs_right _ hpveq he
  obtain ⟨es7, h7, hm7⟩ := vApp_errs_left _ h6 hm6
  obtain ⟨es8, h8, hm8⟩ := vApp_errs_left _ h7 hm7
  obtain ⟨es9, h9, hm9⟩ := vApp_errs_left _ h8 hm8
  obtain ⟨es10, h10, hm10⟩ := vApp_errs_left _ h9 hm9
  exact ⟨es10, h10, hm10⟩

theorem core_invalid_intro {fresh : String} {o : List (String × JVal)}
    {pv : V (Option (List BulletPattern))} {es : List VErr}
    (hpv : patternsF o = some pv) (hch : gdChain fresh o pv = .error es) :
    validateGameDataCore fresh o = .invalid es := by
  unfold validateGameDataCore
  rw [hpv]
  simp [hch]

theorem validate_of_invalid {fresh : String} {o : List (String × JVal)}
    {es : List VErr} (h : validateGameDataCore fresh o = .invalid es) :
    validate_game_data fresh o = some (false, none, some (format_validation_error es)) := by
  unfold validate_game_data
  rw [h]

/-- C1 (amended): provided `bullet_patterns` is not explicitly `null` (that
makes the source's `validate_patterns` raise an uncaught `TypeError`), a
duplicated id inside a collection that passes its own field validation makes
`validate_game_data` fail with a message containing "unique"; and whenever
each collection that passes its field validation has pairwise-distinct ids,
no uniqueness-violation error is produced. A duplicated id inside a
collection whose own field validation fails is rejected without the
"unique" message — see the counterexample. -/
theorem C1_id_uniqueness (fresh : String) (o : List (String × JVal))
    (hnp : jlookup o "bullet_patterns" ≠ some .null) :
    (∀ l, reqF o "stages" (vList validateStage (some 1) (some 10)) = .ok l →
        hasDupIds (l.map Stage.id) = true →
        ∃ msg, validate_game_data fresh o = some (false, none, some msg) ∧
          containsSub "unique" msg) ∧
    (∀ l, reqF o "enemies" (vList validateEnemy (some 1) (some 50)) = .ok l →
        hasDupIds (l.map Enemy.id) = true →
        ∃ msg, validate_game_data fresh o = some (false, none, some msg) ∧
          containsSub "unique" msg) ∧
    (∀ l j, jlookup o "bullet_patterns" = some j →
        withPath "bullet_patterns" (vOpt (vList validateBulletPattern none none) j)
          = .ok (some l) →
        hasDupIds (l.map BulletPattern.id) = true →
        ∃ msg, validate_game_data fresh o = some (false, none, some msg) ∧
          containsSub "unique" msg) ∧
    ((∀ l, reqF o "stages" (vList validateStage (some 1) (some 10)) = .ok l →
        hasDupIds (l.map Stage.id) = false) →
      (∀ l, reqF o "enemies" (vList validateEnemy (some 1) (some 50)) = .ok l →
        hasDupIds (l.map Enemy.id) = false) →
      (∀ l j, jlookup o "bullet_patterns" = some j →
        withPath "bullet_patterns" (vOpt (vList validateBulletPattern none none) j)
          = .ok (some l) →
        hasDupIds (l.map BulletPattern.id) = false) →
      ∀ es, validateGameDataCore fresh o = .invalid es →
        ∀ e ∈ es, notUniqueMsg e.msg) := by
  obtain ⟨pv, hpv⟩ := patternsF_some hnp
  refine ⟨?_, ?_, ?_, ?_⟩
  · intro l hcore hdup
    obtain ⟨es, hch, hm⟩ := @gdChain_stages_err fresh o pv _ _
      (stagesF_dup hcore hdup) (List.mem_singleton_self _)
    refine ⟨format_validation_error es,
      validate_of_invalid (core_invalid_intro hpv hch), ?_⟩
    exact containsSub_format hm (by decide)
  · intro l hcore hdup
    obtain ⟨es, hch, hm⟩ := @gdChain_enemies_err fresh o pv _ _
      (enemiesF_dup hcore hdup) (List.mem_singleton_self _)
    refine ⟨format_validation_error es,
      validate_of_invalid (core_invalid_intro hpv hch), ?_⟩
    exact containsSub_format hm (by decide)
  · intro l j hl hcore hdup
    have hpd := patternsF_dup hl hcore hdup
    obtain ⟨es, hch, hm⟩ := @gdChain_pv_err fresh o
      (.error [⟨["bullet_patterns"], patternUniqueMsg⟩]) _ _
      rfl (List.mem_singleton_self _)
    refine ⟨format_validation_error es,
      validate_of_invalid (core_invalid_intro hpd hch), ?_⟩
    exact containsSub_format hm (by decide)
  · intro hs hen hpt es hinv
    obtain ⟨pv', hpv', hch'⟩ := core_invalid_elim hinv
    exact gdChain_errs_notUnique hs hen hpt hpv' hch'

set_option maxRecDepth 8192 in
/-- C1 counterexample: in `dupEnemyBadDoc` two raw enemies share the id
"e1", so the claim as stated demands a message containing "unique" — but the
first enemy also violates its `hp` range, the `enemies` field fails its own
validation, the pydantic after-validator never runs, and the returned
message carries only the range violation: validation fails without any
"unique" substring. -/
theorem C1_counterexample_field_error_shadows_unique :
    (match jlookup dupEnemyBadDoc "enemies" with
      | some (.arr l) => l.map fun j =>
          match j with
          | .obj fs => jlookup fs "id"
          | _ => none
      | _ => []) = [some (.str "e1"), some (.str "e1")] ∧
    validate_game_data "u-fresh" dupEnemyBadDoc =
      some (false, none, some
        "Validation failed:\n  • enemies -> 0 -> hp: Input should be less than or equal to 1000") ∧
    ¬ containsSub "unique"
      "Validation failed:\n  • enemies -> 0 -> hp: Input should be less than or equal to 1000" := by
  exact ⟨rfl, rfl, by decide⟩

set_option maxRecDepth 8192 in
/-- C1 witness: two individually valid enemies sharing the id "e1" make
validation fail with a message containing "unique". -/
theorem C1_id_uniqueness_witness :
    jlookup dupEnemyDoc "bullet_patterns" ≠ some .null ∧
    reqF dupEnemyDoc "enemies" (vList validateEnemy (some 1) (some 50)) =
      .ok [⟨"e1", "Glyph Worm", 24, mkRat 6 5, 10,
              "side-view biomech larva, single eye", some 100⟩,
           ⟨"e1", "Rib Sentry", 48, mkRat 4 5, 12,
              "floating ribcage, mechanical core", some 100⟩] ∧
    hasDupIds (([⟨"e1", "Glyph Worm", 24, mkRat 6 5, 10,
              "side-view biomech larva, single eye", some 100⟩,
           ⟨"e1", "Rib Sentry", 48, mkRat 4 5, 12,
              "floating ribcage, mechanical core", some 100⟩] : List Enemy).map
        Enemy.id) = true ∧
    (∃ msg, validate_game_data "u-fresh" dupEnemyDoc = some (false, none, some msg) ∧
      containsSub "unique" msg) := by
  refine ⟨fun h => Option.noConfusion h, rfl, by decide, ?_⟩
  exact (C1_id_uniqueness "u-fresh" dupEnemyDoc (fun h => Option.noConfusion h)).2.1
    [⟨"e1", "Glyph Worm", 24, mkRat 6 5, 10,
        "side-view biomech larva, single eye", some 100⟩,
     ⟨"e1", "Rib Sentry", 48, mkRat 4 5, 12,
        "floating ribcage, mechanical core", some 100⟩] rfl (by decide)

/-! Claims C6, C7, C10: the background remover. -/

theorem pixelAt_mapPix (f : RGBA → RGBA) (img : Raster) (i j : Nat) :
    pixelAt (mapPix f img) i j = (pixelAt img i j).map f := by
  unfold pixelAt mapPix
  rw [List.get?_map]
  cases img.get? i with
  | none => rfl
  | some row => simp [List.get?_map]

theorem sqDist_maskStep (bg : RGB) (t : Nat) (p : RGBA) :
    sqDist (maskStep bg t p) bg = sqDist p bg := by
  unfold maskStep
  split <;> rfl

/-- `√d ≤ t` over the reals is exactly `d ≤ t²` over the naturals. -/
theorem real_sqrt_nat_le {d t : Nat} : Real.sqrt d ≤ t ↔ d ≤ t ^ 2 := by
  rw [Real.sqrt_le_left (Nat.cast_nonneg t)]
  exact_mod_cast Iff.rfl

/-- `t < √d` over the reals is exactly `t² < d` over the naturals. -/
theorem real_lt_sqrt_nat {d t : Nat} : (t : Real) < Real.sqrt d ↔ t ^ 2 < d := by
  rw [Real.lt_sqrt (Nat.cast_nonneg t)]
  exact_mod_cast Iff.rfl

/-- The exact-integer feather value equals the floor of the source's
`(distance - tolerance) / 10 * 255`. -/
theorem featherAlpha_eq_floor (d t : Nat) :
    featherAlpha d t = ⌊(Real.sqrt d - t) / 10 * 255⌋₊ := by
  have h51 : Real.sqrt ((2601 * d : Nat) : Real) = 51 * Real.sqrt d := by
    push_cast
    rw [show ((2601 : Real)) = 51 ^ 2 by norm_num,
      Real.sqrt_mul (by positivity) _, Real.sqrt_sq (by norm_num)]
  have heq : (Real.sqrt d - t) / 10 * 255 =
      (Real.sqrt ((2601 * d : Nat) : Real) - ((51 * t : Nat) : Real)) / ((2 : Nat) : Real) := by
    rw [h51]
    push_cast
    ring
  rw [heq, Nat.floor_div_nat, Nat.floor_sub_nat, Real.nat_floor_real_sqrt_eq_nat_sqrt]
  rfl

/-- The composite of the mask step and the feather step acts on one pixel
as the three-way distance case split (the two masks are disjoint). -/
theorem featherStep_maskStep (bg : RGB) (t : Nat) (p : RGBA) :
    featherStep bg t (maskStep bg t p) =
      if sqDist p bg ≤ t ^ 2 then ⟨p.r, p.g, p.b, 0⟩
      else if sqDist p bg ≤ (t + 10) ^ 2 then
        ⟨p.r, p.g, p.b, min p.a (featherAlpha (sqDist p bg) t)⟩
      else p := by
  by_cases h1 : sqDist p bg ≤ t ^ 2
  · have hm : maskStep bg t p = ⟨p.r, p.g, p.b, 0⟩ := by
      unfold maskStep
      rw [if_pos h1]
    have hds : sqDist (⟨p.r, p.g, p.b, 0⟩ : RGBA) bg = sqDist p bg := rfl
    have h1' : ¬ t ^ 2 < sqDist p bg := by omega
    unfold featherStep
    rw [hm, hds, if_pos h1]
    simp [h1']
  · have hm : maskStep bg t p = p := by
      unfold maskStep
      rw [if_neg h1]
    have h1' : t ^ 2 < sqDist p bg := by omega
    unfold featherStep
    rw [hm, if_neg h1]
    by_cases h2 : sqDist p bg ≤ (t + 10) ^ 2
    · rw [if_pos h2]
      simp [h1', h2]
    · rw [if_neg h2]
      simp [h2]

/-- C6: on a decodable raster, the background-removal transformation keeps
every pixel's RGB channels; the background color is the per-channel median
of the greenish border samples (falling back to all border samples); a pixel
at Euclidean RGB distance ≤ tolerance gets alpha 0, a pixel in the 10-unit
feather band gets the minimum of its alpha and the truncated interpolation
`⌊(distance - t)/10 · 255⌋` (25 at distance t+1, 255 at distance t+10), and
any farther pixel keeps its alpha. -/
theorem C6_background_removal (img : Raster) (t i j : Nat) (p : RGBA)
    (hok : rasterOkB img = true) (hp : pixelAt img i j = some p) :
    (bgColor img =
      if 0 < ((edgeSamples img).filter greenishB).length then
        medianColor ((edgeSamples img).filter greenishB)
      else medianColor (edgeSamples img)) ∧
    ∃ q, pixelAt (processRaster img t) i j = some q ∧
      q.r = p.r ∧ q.g = p.g ∧ q.b = p.b ∧
      (Real.sqrt (sqDist p (bgColor img)) ≤ t → q.a = 0) ∧
      ((t : Real) < Real.sqrt (sqDist p (bgColor img)) →
        Real.sqrt (sqDist p (bgColor img)) ≤ (t : Real) + 10 →
          q.a = min p.a (⌊(Real.sqrt (sqDist p (bgColor img)) - t) / 10 * 255⌋₊)) ∧
      (((t : Real) + 10 < Real.sqrt (sqDist p (bgColor img))) → q.a = p.a) := by
  refine ⟨rfl, ?_⟩
  have hq : pixelAt (processRaster img t) i j =
      some (featherStep (bgColor img) t (maskStep (bgColor img) t p)) := by
    unfold processRaster
    rw [pixelAt_mapPix, pixelAt_mapPix, hp]
    rfl
  refine ⟨featherStep (bgColor img) t (maskStep (bgColor img) t p), hq, ?_⟩
  rw [featherStep_maskStep]
  have hcast10 : ((t : Real) + 10) = ((t + 10 : Nat) : Real) := by push_cast; ring
  by_cases h1 : sqDist p (bgColor img) ≤ t ^ 2
  · rw [if_pos h1]
    refine ⟨rfl, rfl, rfl, fun _ => rfl, ?_, ?_⟩
    · intro hlt _
      exact absurd (real_lt_sqrt_nat.mp hlt) (by omega)
    · intro hlt
      rw [hcast10] at hlt
      have := real_lt_sqrt_nat.mp hlt
      have hsq : (t + 10) ^ 2 = t ^ 2 + 20 * t + 100 := by ring
      omega
  · rw [if_neg h1]
    by_cases h2 : sqDist p (bgColor img) ≤ (t + 10) ^ 2
    · rw [if_pos h2]
      refine ⟨rfl, rfl, rfl, ?_, ?_, ?_⟩
      · intro hle
        exact absurd (real_sqrt_nat_le.mp hle) h1
      · intro _ _
        rw [featherAlpha_eq_floor]
      · intro hlt
        rw [hcast10] at hlt
        have := real_lt_sqrt_nat.mp hlt
        omega
    · rw [if_neg h2]
      refine ⟨rfl, rfl, rfl, ?_, ?_, fun _ => rfl⟩
      · intro hle
        exact absurd (real_sqrt_nat_le.mp hle) h1
      · intro _ hle
        rw [hcast10] at hle
        exact absurd (real_sqrt_nat_le.mp hle) h2

/-- C6 witness: a 1×2 raster whose left pixel is chroma-key green. -/
theorem C6_background_removal_witness :
    rasterOkB [[⟨0, 255, 0, 255⟩, ⟨200, 10, 10, 255⟩]] = true ∧
    pixelAt [[⟨0, 255, 0, 255⟩, ⟨200, 10, 10, 255⟩]] 0 0 = some ⟨0, 255, 0, 255⟩ ∧
    ((bgColor [[⟨0, 255, 0, 255⟩, ⟨200, 10, 10, 255⟩]] =
      if 0 < ((edgeSamples [[⟨0, 255, 0, 255⟩, ⟨200, 10, 10, 255⟩]]).filter greenishB).length then
        medianColor ((edgeSamples [[⟨0, 255, 0, 255⟩, ⟨200, 10, 10, 255⟩]]).filter greenishB)
      else medianColor (edgeSamples [[⟨0, 255, 0, 255⟩, ⟨200, 10, 10, 255⟩]])) ∧
    ∃ q, pixelAt (processRaster [[⟨0, 255, 0, 255⟩, ⟨200, 10, 10, 255⟩]] 35) 0 0 = some q ∧
      q.r = (⟨0, 255, 0, 255⟩ : RGBA).r ∧ q.g = (⟨0, 255, 0, 255⟩ : RGBA).g ∧
      q.b = (⟨0, 255, 0, 255⟩ : RGBA).b ∧
      (Real.sqrt (sqDist ⟨0, 255, 0, 255⟩
          (bgColor [[⟨0, 255, 0, 255⟩, ⟨200, 10, 10, 255⟩]])) ≤ 35 → q.a = 0) ∧
      ((35 : Real) < Real.sqrt (sqDist ⟨0, 255, 0, 255⟩
          (bgColor [[⟨0, 255, 0, 255⟩, ⟨200, 10, 10, 255⟩]])) →
        Real.sqrt (sqDist ⟨0, 255, 0, 255⟩
          (bgColor [[⟨0, 255, 0, 255⟩, ⟨200, 10, 10, 255⟩]])) ≤ (35 : Real) + 10 →
          q.a = min (⟨0, 255, 0, 255⟩ : RGBA).a
            (⌊(Real.sqrt (sqDist ⟨0, 255, 0, 255⟩
              (bgColor [[⟨0, 255, 0, 255⟩, ⟨200, 10, 10, 255⟩]])) - 35) / 10 * 255⌋₊)) ∧
      (((35 : Real) + 10 < Real.sqrt (sqDist ⟨0, 255, 0, 255⟩
          (bgColor [[⟨0, 255, 0, 255⟩, ⟨200, 10, 10, 255⟩]]))) →
        q.a = (⟨0, 255, 0, 255⟩ : RGBA).a)) := by
  refine ⟨by decide, by decide, ?_⟩
  exact C6_background_removal [[⟨0, 255, 0, 255⟩, ⟨200, 10, 10, 255⟩]] 35 0 0
    ⟨0, 255, 0, 255⟩ (by decide) (by decide)

/-- C7: `remove_solid_background` is total and returns its input unchanged
whenever any internal step fails — either the decode pipeline (bad data URL,
bad base64, unopenable image) or the raster access of a degenerate image;
otherwise it returns the re-encoded processed raster. -/
theorem C7_failure_returns_input (decode : String → Option Raster)
    (encode : Raster → String) (s : String) (t : Nat) :
    (decode s = none → remove_solid_background decode encode s t = s) ∧
    (∀ img, decode s = some img → rasterOkB img = false →
      remove_solid_background decode encode s t = s) ∧
    (remove_solid_background decode encode s t = s ∨
      ∃ img, decode s = some img ∧ rasterOkB img = true ∧
        remove_solid_background decode encode s t = encode (processRaster img t)) := by
  refine ⟨?_, ?_, ?_⟩
  · intro h
    unfold remove_solid_background
    rw [h]
  · intro img h hbad
    unfold remove_solid_background
    rw [h]
    simp [hbad]
  · cases hd : decode s with
    | none =>
        left
        unfold remove_solid_background
        rw [hd]
    | some img =>
        cases hok : rasterOkB img with
        | true =>
            right
            refine ⟨img, rfl, hok, ?_⟩
            unfold remove_solid_background
            rw [hd]
            simp [hok]
        | false =>
            left
            unfold remove_solid_background
            rw [hd]
            simp [hok]

/-- C7 witness: an undecodable input string is returned unchanged. -/
theorem C7_failure_returns_input_witness :
    ((fun _ => none : String → Option Raster) "not-a-base64-image" = none) ∧
    remove_solid_background (fun _ => none) (fun _ => "") "not-a-base64-image" 35 =
      "not-a-base64-image" := by
  refine ⟨rfl, ?_⟩
  exact (C7_failure_returns_input (fun _ => none) (fun _ => "")
    "not-a-base64-image" 35).1 rfl

/-- C10: the raster transformation never changes a pixel's RGB channels and
never increases its alpha; and on the internal-failure path the input (hence
its decoded raster) is returned unchanged. -/
theorem C10_opacity_only_decreases :
    (∀ (img : Raster) (t i j : Nat) (p : RGBA), pixelAt img i j = some p →
      ∃ q, pixelAt (processRaster img t) i j = some q ∧
        q.r = p.r ∧ q.g = p.g ∧ q.b = p.b ∧ q.a ≤ p.a) ∧
    (∀ (decode : String → Option Raster) (encode : Raster → String)
      (s : String) (t : Nat), decode s = none →
        remove_solid_background decode encode s t = s) := by
  constructor
  · intro img t i j p hp
    have hq : pixelAt (processRaster img t) i j =
        some (featherStep (bgColor img) t (maskStep (bgColor img) t p)) := by
      unfold processRaster
      rw [pixelAt_mapPix, pixelAt_mapPix, hp]
      rfl
    refine ⟨_, hq, ?_⟩
    rw [featherStep_maskStep]
    by_cases h1 : sqDist p (bgColor img) ≤ t ^ 2
    · rw [if_pos h1]
      exact ⟨rfl, rfl, rfl, Nat.zero_le _⟩
    · rw [if_neg h1]
      by_cases h2 : sqDist p (bgColor img) ≤ (t + 10) ^ 2
      · rw [if_pos h2]
        exact ⟨rfl, rfl, rfl, Nat.min_le_left _ _⟩
      · rw [if_neg h2]
        exact ⟨rfl, rfl, rfl, le_refl _⟩
  · intro decode encode s t h
    unfold remove_solid_background
    rw [h]

/-- C10 witness: concrete pixel and concrete failing decode. -/
theorem C10_opacity_only_decreases_witness :
    (pixelAt [[⟨0, 255, 0, 255⟩]] 0 0 = some ⟨0, 255, 0, 255⟩ ∧
      ∃ q, pixelAt (processRaster [[⟨0, 255, 0, 255⟩]] 35) 0 0 = some q ∧
        q.r = (⟨0, 255, 0, 255⟩ : RGBA).r ∧ q.g = (⟨0, 255, 0, 255⟩ : RGBA).g ∧
        q.b = (⟨0, 255, 0, 255⟩ : RGBA).b ∧ q.a ≤ (⟨0, 255, 0, 255⟩ : RGBA).a) ∧
    ((fun _ => none : String → Option Raster) "garbage" = none ∧
      remove_solid_background (fun _ => none) (fun _ => "") "garbage" 35 = "garbage") := by
  constructor
  · exact ⟨by decide, C10_opacity_only_decreases.1 [[⟨0, 255, 0, 255⟩]] 35 0 0
      ⟨0, 255, 0, 255⟩ (by decide)⟩
  · exact ⟨rfl, C10_opacity_only_decreases.2 (fun _ => none) (fun _ => "") "garbage" 35 rfl⟩
